import Mathlib

/-!
The vrb render-state binder.

A shallow embedding of `src/RenderState.cpp` (class `vrb::RenderState` and its
private `RenderState::State`) together with theorems about it.

Conventions of the embedding.

* The binder state `m` of the C++ class is the record `State`; every member
  function becomes a function from the state before the call to the state after
  it (plus whatever the call returns or emits).
* The GPU and the collaborating `Program` / `Texture` objects are external: every
  call made to them is appended, in program order, to a list of `GLCall` events.
* `float` values are only stored and copied by this file, never computed with;
  they are carried as rationals.
* A cell of raw `float` storage whose content is indeterminate (fresh
  `new float[...]` storage, or a read outside an array) is `none`.
* A store through a pointer is in bounds when it lands inside the allocation the
  pointer was obtained from. A store outside it, or through `nullptr`, has no
  defined behaviour in the source: `SetBonesCount.memorySafe` and
  `SetSkeletonMatrices.memorySafe` say when a call makes none, and `stepChecked` /
  `runChecked` stop at the first call that does.
* `VRB_MAX_LIGHTS` is a preprocessor constant declared in a header outside this
  file; it is a parameter of every definition that depends on it.
-/

namespace vrb

/-! ## Value types consumed by the binder -/

/-- OpenGL signed integer, the type of uniform and attribute locations. -/
abbrev GLint := Int

/-- OpenGL single-precision scalar; only stored and copied here. -/
abbrev GLfloat := Rat

/-- A location argument as it reaches a GL call: `some l` for a location read from
the binder, `none` when the read fell outside the `uLights` array. -/
abbrev Loc := Option GLint

/-- One cell of raw float storage; `none` is an indeterminate value. -/
abbrev Cell := Option GLfloat

/-- Three-component direction, `vrb::Vector` as seen through `x()`, `y()`, `z()`. -/
structure Vector where
  x : GLfloat
  y : GLfloat
  z : GLfloat
  deriving DecidableEq, Repr

/-- Four-component color, `vrb::Color` as seen through `Red()` .. `Alpha()` and `Data()`. -/
structure Color where
  Red : GLfloat
  Green : GLfloat
  Blue : GLfloat
  Alpha : GLfloat
  deriving DecidableEq, Repr

/-- The sixteen floats behind `vrb::Matrix::Data()`. -/
abbrev Matrix := { l : List GLfloat // l.length = 16 }

/-- The floats of a matrix as storage cells. -/
def Matrix.Data (a : Matrix) : List Cell := a.val.map some

/-- The sixteen floats of the 4x4 identity, row by row. -/
def identity16 : List GLfloat :=
  [1, 0, 0, 0,
   0, 1, 0, 0,
   0, 0, 1, 0,
   0, 0, 0, 1]

/-- Value of `Matrix::Identity()`. -/
def Matrix.Identity : Matrix := ⟨identity16, rfl⟩

/-- Capability flags passed to `Program::SupportsFeatures`; only the two flags the
binder asks about are named, their numeric values are declared elsewhere. -/
inductive Feature
  | FeatureUVTransform
  | FeatureVertexColor
  deriving DecidableEq, Repr

/-- Address of a `Program` object (the non-null content of a `ProgramPtr`). -/
abbrev ProgramAddr := Nat

/-- Modelled from the spec: the `Program` class is declared and defined outside
this file; section 6 of the specification gives the interface the binder consumes,
`GetProgram() -> handle-or-zero`, `Enable() -> bool`, `GetUniformLocation(name)`,
`GetAttributeLocation(name)`, `SupportsFeatures(flag) -> bool`. A value of this
type is what one program object answers to the binder during one call. -/
structure Program where
  GetProgram : Nat
  Enable : Bool
  GetUniformLocation : String → GLint
  GetAttributeLocation : String → GLint
  SupportsFeatures : Feature → Bool

/-- The program objects as they stand when a binder call runs. -/
abbrev Programs := ProgramAddr → Program

/-- Modelled from the spec: `Program::Enable()` is defined outside this file.
Sections 4.5 and 7(b) of the specification have the activation of a program that
is not linked fail ("Program not ready: `Enable` called with no program or an
unlinked program; surfaced as a boolean failure", reached through "if activation
fails, returns failure"). A program object answers as specified when a zero
handle comes with a failing activation. -/
def Program.activationAsSpecified (program : Program) : Prop :=
  program.GetProgram = 0 → program.Enable = false

/-- A `Texture` object as seen by the binder: its identity and `GetTarget()`. -/
structure Texture where
  name : Nat
  GetTarget : Nat
  deriving DecidableEq, Repr

/-- OpenGL enumerant `GL_TEXTURE_2D`. -/
def GL_TEXTURE_2D : Nat := 0x0DE1

/-- OpenGL enumerant `GL_TEXTURE_CUBE_MAP`. -/
def GL_TEXTURE_CUBE_MAP : Nat := 0x8513

/-- OpenGL enumerant `GL_TEXTURE0`. -/
def GL_TEXTURE0 : Nat := 0x84C0

/-- Size of a `float` in bytes. -/
def sizeofFloat : Nat := 4

/-! ## Calls leaving the binder -/

/-- One call made by the binder to the GPU API or to a collaborating object. -/
inductive GLCall
  /-- The call `program->Enable()` on the program object at the given address. -/
  | programEnable (p : ProgramAddr)
  /-- The call `program->GetUniformLocation(name)`. -/
  | getUniformLocation (p : ProgramAddr) (name : String)
  /-- The call `program->GetAttributeLocation(name)`. -/
  | getAttributeLocation (p : ProgramAddr) (name : String)
  | glUniform3f (location : Loc) (v0 v1 v2 : GLfloat)
  | glUniform4fv (location : Loc) (count : Nat) (value : Color)
  | glUniform1i (location : Loc) (v0 : Int)
  | glUniform1f (location : Loc) (v0 : GLfloat)
  | glUniform4f (location : Loc) (v0 v1 v2 v3 : GLfloat)
  | glActiveTexture (texture : Nat)
  /-- The call `texture->Bind()`. -/
  | textureBind (t : Texture)
  /-- The call `texture->Unbind()`. -/
  | textureUnbind (t : Texture)
  /-- The call `glUniformMatrix4fv(location, count, transpose, value)`; `value` lists the
  `16 * count` cells the call reads through the pointer. -/
  | glUniformMatrix4fv (location : Loc) (count : Nat) (transpose : Bool) (value : List Cell)
  deriving DecidableEq, Repr

/-- Whether a call is a uniform- or attribute-location lookup on a program. -/
def GLCall.isLookup : GLCall → Bool
  | .getUniformLocation _ _ => true
  | .getAttributeLocation _ _ => true
  | _ => false

/-- Whether a call is a uniform write (any `glUniform*`). -/
def GLCall.isUniformWrite : GLCall → Bool
  | .glUniform3f _ _ _ _ => true
  | .glUniform4fv _ _ _ => true
  | .glUniform1i _ _ => true
  | .glUniform1f _ _ => true
  | .glUniform4f _ _ _ _ _ => true
  | .glUniformMatrix4fv _ _ _ _ => true
  | _ => false

/-- Whether a call touches texture binding state (`glActiveTexture`, `Bind`, `Unbind`). -/
def GLCall.isTextureCall : GLCall → Bool
  | .glActiveTexture _ => true
  | .textureBind _ => true
  | .textureUnbind _ => true
  | _ => false

/-- Whether a call is a uniform write whose location argument was read outside the
`uLights` array. -/
def GLCall.outOfRange : GLCall → Bool
  | .glUniform3f none _ _ _ => true
  | .glUniform4fv none _ _ => true
  | .glUniform1i none _ => true
  | .glUniform1f none _ => true
  | .glUniform4f none _ _ _ _ => true
  | .glUniformMatrix4fv none _ _ _ => true
  | _ => false

/-- Whether a call is `glUniform3f`, the call `Enable` uses for a light direction
and for nothing else. -/
def GLCall.isUniform3f : GLCall → Bool
  | .glUniform3f _ _ _ _ => true
  | _ => false

/-! ## Raw float storage -/

/-- The `n` cells read through a pointer to the start of `mem`. -/
def readCells (mem : List Cell) (n : Nat) : List Cell :=
  (List.range n).map (fun k => mem.getD k none)

/-- Destination of one `memcpy` into the owned skeleton buffer: first float index
(relative to the start of the buffer) and number of floats stored. -/
structure MemStore where
  offset : Nat
  count : Nat
  deriving DecidableEq, Repr

/-- A store stays inside a buffer of `len` floats. -/
def MemStore.inBounds (st : MemStore) (len : Nat) : Prop :=
  st.offset + st.count ≤ len

instance (st : MemStore) (len : Nat) : Decidable (st.inBounds len) :=
  inferInstanceAs (Decidable (st.offset + st.count ≤ len))

/-- Content of the buffer `dst` after `memcpy(dst + offset, src, count * sizeof(float))`:
every cell of `dst` inside the destination range receives the matching source
cell, the other cells keep their content. This is the whole effect of the copy
only when `st.inBounds dst.length`. The part of a store that reaches past `dst` is
a write outside the allocation, which this value does not show; whether a binder
call makes such a write is told by `SetBonesCount.memorySafe` and
`SetSkeletonMatrices.memorySafe`. -/
def memcpyFloats (dst : List Cell) (st : MemStore) (src : List GLfloat) : List Cell :=
  (List.range dst.length).map (fun k =>
    if st.offset ≤ k ∧ k < st.offset + st.count then src[k - st.offset]? else dst.getD k none)

namespace RenderState

/-! ## `RenderState::State` -/

/-- Member `State::Light`. -/
structure Light where
  direction : Vector
  ambient : Color
  diffuse : Color
  specular : Color
  deriving DecidableEq, Repr

/-- Member `State::ULight`: the four cached uniform locations of one light slot. -/
structure ULight where
  direction : GLint
  ambient : GLint
  diffuse : GLint
  specular : GLint
  deriving DecidableEq, Repr

/-- Default constructor `ULight()`. -/
def ULight.init : ULight :=
  { direction := 0, ambient := 0, diffuse := 0, specular := 0 }

/-- The binder state `RenderState::State`. `uLights` is the array
`ULight uLights[VRB_MAX_LIGHTS]`; `skeletonMatrices` is `none` for `nullptr` and
otherwise the cells of the owned allocation. -/
structure State where
  program : Option ProgramAddr
  updateProgram : Bool
  uPerspective : GLint
  uView : GLint
  uModel : GLint
  uUVTransform : GLint
  uLightCount : GLint
  uBoneMats : GLint
  uLights : List ULight
  uMatterialAmbient : GLint
  uMatterialDiffuse : GLint
  uMatterialSpecular : GLint
  uMatterialSpecularExponent : GLint
  uTexture0 : GLint
  uTintColor : GLint
  aPosition : GLint
  aNormal : GLint
  aUV : GLint
  aColor : GLint
  aBoneId : GLint
  aBoneWeight : GLint
  lights : List Light
  ambient : Color
  diffuse : Color
  specular : Color
  specularExponent : GLfloat
  texture : Option Texture
  tintColor : Color
  lightId : Nat
  lightsEnabled : Bool
  uvTransformEnabled : Bool
  uvTransform : Matrix
  customFragmentShader : String
  bonesCount : Nat
  skeletonMatrices : Option (List Cell)
  deriving DecidableEq

/-- Constructor `State()`. `specular` has no initialiser in the source and takes
the default `Color()`, which is passed in as `defaultColor`. -/
def State.init (VRB_MAX_LIGHTS : Nat) (defaultColor : Color) : State :=
  { program := none
    updateProgram := true
    uPerspective := -1
    uView := -1
    uModel := -1
    uUVTransform := -1
    uLightCount := -1
    uBoneMats := -1
    uLights := List.replicate VRB_MAX_LIGHTS ULight.init
    uMatterialAmbient := -1
    uMatterialDiffuse := -1
    uMatterialSpecular := -1
    uMatterialSpecularExponent := -1
    uTexture0 := -1
    uTintColor := -1
    aPosition := -1
    aNormal := -1
    aUV := -1
    aColor := -1
    aBoneId := -1
    aBoneWeight := -1
    lights := []
    ambient := ⟨1/2, 1/2, 1/2, 1⟩
    diffuse := ⟨1, 1, 1, 1⟩
    specular := defaultColor
    specularExponent := 0
    texture := none
    tintColor := ⟨1, 1, 1, 1⟩
    lightId := 0
    lightsEnabled := true
    uvTransformEnabled := false
    uvTransform := Matrix.Identity
    customFragmentShader := ""
    bonesCount := 0
    skeletonMatrices := none }

/-! ## `RenderState::State::InitializeProgram` -/

/-- The `for (int ix = 0; ix < VRB_MAX_LIGHTS; ix++)` loop of `InitializeProgram`:
for each `ix` it builds the four uniform names of slot `ix`, looks them up in that
order and stores the answers in `uLights[ix]`. Returns the array after the loop
and the lookups issued. -/
def State.InitializeProgram.lightsLoop (VRB_MAX_LIGHTS : Nat) (p : ProgramAddr)
    (program : Program) (uLights : List ULight) : List ULight × List GLCall :=
  (List.range VRB_MAX_LIGHTS).foldl
    (fun acc ix =>
      let structName := "u_lights[" ++ toString ix ++ "]."
      let direction := structName ++ "direction"
      let ambient := structName ++ "ambient"
      let diffuse := structName ++ "diffuse"
      let specular := structName ++ "specular"
      (acc.1.set ix
          { direction := program.GetUniformLocation direction
            ambient := program.GetUniformLocation ambient
            diffuse := program.GetUniformLocation diffuse
            specular := program.GetUniformLocation specular },
        acc.2 ++
          [ GLCall.getUniformLocation p direction,
            GLCall.getUniformLocation p ambient,
            GLCall.getUniformLocation p diffuse,
            GLCall.getUniformLocation p specular ]))
    (uLights, [])

/-- Member function `RenderState::State::InitializeProgram()`: returns the state after the call
and the location lookups issued, in program order. -/
def State.InitializeProgram (VRB_MAX_LIGHTS : Nat) (programs : Programs) (m : State) :
    State × List GLCall :=
  match m.program with
  | none => (m, [])
  | some p =>
    let program := programs p
    if program.GetProgram = 0 then (m, [])
    else
      let kEnableTexturing := m.texture.isSome
      let uvTransformEnabled := program.SupportsFeatures Feature.FeatureUVTransform
      let vertexColor := program.SupportsFeatures Feature.FeatureVertexColor
      let skeleton := m.skeletonMatrices.isSome && decide (m.bonesCount > 0)
      let loop := State.InitializeProgram.lightsLoop VRB_MAX_LIGHTS p program m.uLights
      ({ m with
          uvTransformEnabled := uvTransformEnabled
          uPerspective := program.GetUniformLocation "u_perspective"
          uView := program.GetUniformLocation "u_view"
          uModel := program.GetUniformLocation "u_model"
          uLightCount := program.GetUniformLocation "u_lightCount"
          uUVTransform :=
            if uvTransformEnabled then program.GetUniformLocation "u_uv_transform"
            else m.uUVTransform
          uLights := loop.1
          uMatterialAmbient := program.GetUniformLocation ("u_material." ++ "ambient")
          uMatterialDiffuse := program.GetUniformLocation ("u_material." ++ "diffuse")
          uMatterialSpecular := program.GetUniformLocation ("u_material." ++ "specular")
          uMatterialSpecularExponent :=
            program.GetUniformLocation ("u_material." ++ "specularExponent")
          uTexture0 :=
            if kEnableTexturing then program.GetUniformLocation "u_texture0" else m.uTexture0
          uTintColor := program.GetUniformLocation "u_tintColor"
          aPosition := program.GetAttributeLocation "a_position"
          aNormal := program.GetAttributeLocation "a_normal"
          aUV := if kEnableTexturing then program.GetAttributeLocation "a_uv" else m.aUV
          aColor := if vertexColor then program.GetAttributeLocation "a_color" else m.aColor
          aBoneId := if skeleton then program.GetAttributeLocation "a_boneId" else m.aBoneId
          aBoneWeight :=
            if skeleton then program.GetAttributeLocation "a_boneWeight" else m.aBoneWeight
          uBoneMats := if skeleton then program.GetUniformLocation "u_jointMatrix" else m.uBoneMats
          updateProgram := false },
        [ GLCall.getUniformLocation p "u_perspective",
          GLCall.getUniformLocation p "u_view",
          GLCall.getUniformLocation p "u_model",
          GLCall.getUniformLocation p "u_lightCount" ]
        ++ (if uvTransformEnabled then [GLCall.getUniformLocation p "u_uv_transform"] else [])
        ++ loop.2
        ++ [ GLCall.getUniformLocation p ("u_material." ++ "ambient"),
             GLCall.getUniformLocation p ("u_material." ++ "diffuse"),
             GLCall.getUniformLocation p ("u_material." ++ "specular"),
             GLCall.getUniformLocation p ("u_material." ++ "specularExponent") ]
        ++ (if kEnableTexturing then [GLCall.getUniformLocation p "u_texture0"] else [])
        ++ [ GLCall.getUniformLocation p "u_tintColor",
             GLCall.getAttributeLocation p "a_position",
             GLCall.getAttributeLocation p "a_normal" ]
        ++ (if kEnableTexturing then [GLCall.getAttributeLocation p "a_uv"] else [])
        ++ (if vertexColor then [GLCall.getAttributeLocation p "a_color"] else [])
        ++ (if skeleton then
              [ GLCall.getAttributeLocation p "a_boneId",
                GLCall.getAttributeLocation p "a_boneWeight",
                GLCall.getUniformLocation p "u_jointMatrix" ]
            else []))

/-! ## Setters and getters -/

/-- Member function `RenderState::SetProgram`. -/
def SetProgram (m : State) (aProgram : Option ProgramAddr) : State :=
  { m with program := aProgram, updateProgram := true }

/-- Member function `RenderState::GetLightId`. -/
def GetLightId (m : State) : Nat := m.lightId

/-- Member function `RenderState::GetBonesCount`. -/
def GetBonesCount (m : State) : Nat := m.bonesCount

/-- Member function `RenderState::ResetLights`. -/
def ResetLights (m : State) (aId : Nat) : State :=
  { m with lightId := aId, lights := [] }

/-- Member function `RenderState::AddLight`: `push_back` of a new light. -/
def AddLight (m : State) (aDirection : Vector) (aAmbient aDiffuse aSpecular : Color) : State :=
  { m with lights := m.lights ++ [⟨aDirection, aAmbient, aDiffuse, aSpecular⟩] }

/-- Member function `RenderState::SetMaterial`. -/
def SetMaterial (m : State) (aAmbient aDiffuse aSpecular : Color) (aSpecularExponent : GLfloat) :
    State :=
  { m with
    ambient := aAmbient
    diffuse := aDiffuse
    specular := aSpecular
    specularExponent := aSpecularExponent }

/-- Member function `RenderState::SetAmbient`. -/
def SetAmbient (m : State) (aColor : Color) : State := { m with ambient := aColor }

/-- Member function `RenderState::SetDiffuse`. -/
def SetDiffuse (m : State) (aColor : Color) : State := { m with diffuse := aColor }

/-- The single `memcpy` of `SetSkeletonMatrices`: `16 * bonesCount * sizeof(float)`
bytes to the start of the owned buffer. -/
def SetSkeletonMatrices.store (m : State) : MemStore :=
  { offset := 0, count := 16 * m.bonesCount * sizeofFloat / sizeofFloat }

/-- Member function `RenderState::SetSkeletonMatrices`: the binder state after the
copy. With no owned buffer the source copies `16 * bonesCount` floats through
`nullptr`; no cell of the binder receives them and the value given here is the
state as it was, but the call itself is then outside defined behaviour whenever
`bonesCount > 0`, which `SetSkeletonMatrices.memorySafe` records. -/
def SetSkeletonMatrices (m : State) (matrices : List GLfloat) : State :=
  match m.skeletonMatrices with
  | none => m
  | some buf =>
    { m with skeletonMatrices := some (memcpyFloats buf (SetSkeletonMatrices.store m) matrices) }

/-- The `memcpy` destinations of the initialisation loop of `SetBonesCount`, in
loop order. `stride` is `16 * sizeof(float)`; iteration `i` copies `stride` bytes
to `m.skeletonMatrices + stride * i`, an offset counted in floats because
`m.skeletonMatrices` is a `float*`. -/
def SetBonesCount.stores (bonesCount : Nat) : List MemStore :=
  let stride := 16 * sizeofFloat
  (List.range bonesCount).map (fun i => { offset := stride * i, count := stride / sizeofFloat })

/-- Member function `RenderState::SetBonesCount`: a fresh allocation of `16 * bonesCount`
indeterminate floats, then the initialisation loop, then the new count. The
argument is a `uint16_t`; `16 * bonesCount` and `stride * i` do not overflow `int`
for such values. -/
def SetBonesCount (m : State) (bonesCount : Nat) : State :=
  let fresh : List Cell := List.replicate (16 * bonesCount) none
  { m with
    skeletonMatrices :=
      some ((SetBonesCount.stores bonesCount).foldl
        (fun buf st => memcpyFloats buf st identity16) fresh)
    bonesCount := bonesCount }

/-- Whether every `memcpy` of the initialisation loop of `SetBonesCount` lands
inside the fresh allocation of `16 * bonesCount` floats. -/
def SetBonesCount.memorySafe (bonesCount : Nat) : Bool :=
  (SetBonesCount.stores bonesCount).all (fun st => decide (st.inBounds (16 * bonesCount)))

/-- Whether the `memcpy` of `SetSkeletonMatrices` lands inside the owned buffer.
Through `nullptr` it does so only when it copies nothing. -/
def SetSkeletonMatrices.memorySafe (m : State) : Bool :=
  match m.skeletonMatrices with
  | none => decide ((SetSkeletonMatrices.store m).count = 0)
  | some buf => decide ((SetSkeletonMatrices.store m).inBounds buf.length)

/-- Member function `RenderState::GetMaterial`: the four values copied out. -/
def GetMaterial (m : State) : Color × Color × Color × GLfloat :=
  (m.ambient, m.diffuse, m.specular, m.specularExponent)

/-- Member function `RenderState::UVLength`. -/
def UVLength (m : State) : GLint :=
  match m.texture with
  | none => 0
  | some t => if t.GetTarget = GL_TEXTURE_CUBE_MAP then 3 else 2

/-- Member function `RenderState::GetTexture`. -/
def GetTexture (m : State) : Option Texture := m.texture

/-- Member function `RenderState::SetTexture`. -/
def SetTexture (m : State) (aTexture : Option Texture) : State := { m with texture := aTexture }

/-- Member function `RenderState::HasTexture`. -/
def HasTexture (m : State) : Bool := m.texture.isSome

/-- Member function `RenderState::GetTintColor`. -/
def GetTintColor (m : State) : Color := m.tintColor

/-- Member function `RenderState::SetTintColor`. -/
def SetTintColor (m : State) (aColor : Color) : State := { m with tintColor := aColor }

/-- Member function `RenderState::SetLightsEnabled`. -/
def SetLightsEnabled (m : State) (aEnabled : Bool) : State := { m with lightsEnabled := aEnabled }

/-- Member function `RenderState::SetUVTransform`. -/
def SetUVTransform (m : State) (aMatrix : Matrix) : State := { m with uvTransform := aMatrix }

/-- Member function `RenderState::InitializeGL`: empty body. -/
def InitializeGL (m : State) : State := m

/-- Member function `RenderState::ShutdownGL`. -/
def ShutdownGL (m : State) : State :=
  { m with updateProgram := true, skeletonMatrices := none }

/-! ## `Enable` and `Disable` -/

/-- The range-for loop of `Enable` over `m.lights`: for each light, in order, the
four uniform writes addressed through `m.uLights[lightCount]`, then
`lightCount++`. Returns the writes and the final `lightCount`. A subscript outside
the array yields an indeterminate location. -/
def Enable.lightsLoop (uLights : List ULight) : List Light → Nat → List GLCall × Nat
  | [], lightCount => ([], lightCount)
  | light :: rest, lightCount =>
    let slot := uLights[lightCount]?
    let tail := Enable.lightsLoop uLights rest (lightCount + 1)
    ( [ GLCall.glUniform3f (slot.map (·.direction))
          light.direction.x light.direction.y light.direction.z,
        GLCall.glUniform4fv (slot.map (·.ambient)) 1 light.ambient,
        GLCall.glUniform4fv (slot.map (·.diffuse)) 1 light.diffuse,
        GLCall.glUniform4fv (slot.map (·.specular)) 1 light.specular ] ++ tail.1,
      tail.2 )

/-- What `Enable` hands back: its boolean result, the binder state after the call
and the calls it made, in program order. -/
structure EnableResult where
  result : Bool
  state : State
  calls : List GLCall

/-- Member function `RenderState::Enable`. -/
def Enable (VRB_MAX_LIGHTS : Nat) (programs : Programs) (m : State)
    (aPerspective aView aModel : Matrix) : EnableResult :=
  match m.program with
  | none => { result := false, state := m, calls := [] }
  | some p =>
    if !(programs p).Enable then
      { result := false, state := m, calls := [GLCall.programEnable p] }
    else
      let init := if m.updateProgram then m.InitializeProgram VRB_MAX_LIGHTS programs else (m, [])
      let m := init.1
      let lights := if m.lightsEnabled then Enable.lightsLoop m.uLights m.lights 0 else ([], 0)
      { result := true
        state := m
        calls :=
          [GLCall.programEnable p]
          ++ init.2
          ++ lights.1
          ++ [ GLCall.glUniform1i (some m.uLightCount) lights.2,
               GLCall.glUniform4fv (some m.uMatterialAmbient) 1 m.ambient,
               GLCall.glUniform4fv (some m.uMatterialDiffuse) 1 m.diffuse,
               GLCall.glUniform4fv (some m.uMatterialSpecular) 1 m.specular,
               GLCall.glUniform1f (some m.uMatterialSpecularExponent) m.specularExponent ]
          ++ (match m.texture with
              | some t =>
                [ GLCall.glActiveTexture GL_TEXTURE0,
                  GLCall.textureBind t,
                  GLCall.glUniform1i (some m.uTexture0) 0 ]
              | none => [])
          ++ [ GLCall.glUniform4f (some m.uTintColor)
                 m.tintColor.Red m.tintColor.Green m.tintColor.Blue m.tintColor.Alpha,
               GLCall.glUniformMatrix4fv (some m.uPerspective) 1 false aPerspective.Data,
               GLCall.glUniformMatrix4fv (some m.uView) 1 false aView.Data,
               GLCall.glUniformMatrix4fv (some m.uModel) 1 false aModel.Data ]
          ++ (if m.uvTransformEnabled then
                [GLCall.glUniformMatrix4fv (some m.uUVTransform) 1 false m.uvTransform.Data]
              else [])
          ++ (match m.skeletonMatrices with
              | some buf =>
                if m.bonesCount > 0 ∧ m.uBoneMats ≥ 0 then
                  [ GLCall.glUniformMatrix4fv (some m.uBoneMats) m.bonesCount false
                      (readCells buf (16 * m.bonesCount)) ]
                else []
              | none => []) }

/-- Member function `RenderState::Disable`: the state after the call and the calls made. -/
def Disable (m : State) : State × List GLCall :=
  match m.texture with
  | some t => (m, [GLCall.glActiveTexture GL_TEXTURE0, GLCall.textureUnbind t])
  | none => (m, [])

/-! ## Call sequences -/

/-- One call on the public interface of the binder, with its arguments. `Enable`
carries the program objects as they stand at the time of the call. -/
inductive Op
  | SetProgram (aProgram : Option ProgramAddr)
  | ResetLights (aId : Nat)
  | AddLight (aDirection : Vector) (aAmbient aDiffuse aSpecular : Color)
  | SetMaterial (aAmbient aDiffuse aSpecular : Color) (aSpecularExponent : GLfloat)
  | SetAmbient (aColor : Color)
  | SetDiffuse (aColor : Color)
  | SetSkeletonMatrices (matrices : List GLfloat)
  | SetBonesCount (bonesCount : Nat)
  | SetTexture (aTexture : Option Texture)
  | SetTintColor (aColor : Color)
  | Enable (programs : Programs) (aPerspective aView aModel : Matrix)
  | Disable
  | SetLightsEnabled (aEnabled : Bool)
  | SetUVTransform (aMatrix : Matrix)
  | InitializeGL
  | ShutdownGL

/-- Whether the call is `SetProgram`. -/
def Op.isSetProgram : Op → Bool
  | .SetProgram _ => true
  | _ => false

/-- Whether the call is `ShutdownGL`. -/
def Op.isShutdownGL : Op → Bool
  | .ShutdownGL => true
  | _ => false

/-- Whether the call is `AddLight`. -/
def Op.isAddLight : Op → Bool
  | .AddLight _ _ _ _ => true
  | _ => false

/-- Whether the call is `ResetLights`. -/
def Op.isResetLights : Op → Bool
  | .ResetLights _ => true
  | _ => false

/-- Whether the call is `SetBonesCount`. -/
def Op.isSetBonesCount : Op → Bool
  | .SetBonesCount _ => true
  | _ => false

/-- Runs one call: the state after it and the calls it made to the outside. -/
def step (VRB_MAX_LIGHTS : Nat) (m : State) : Op → State × List GLCall
  | .SetProgram aProgram => (SetProgram m aProgram, [])
  | .ResetLights aId => (ResetLights m aId, [])
  | .AddLight d a di s => (AddLight m d a di s, [])
  | .SetMaterial a d s e => (SetMaterial m a d s e, [])
  | .SetAmbient c => (SetAmbient m c, [])
  | .SetDiffuse c => (SetDiffuse m c, [])
  | .SetSkeletonMatrices matrices => (SetSkeletonMatrices m matrices, [])
  | .SetBonesCount n => (SetBonesCount m n, [])
  | .SetTexture t => (SetTexture m t, [])
  | .SetTintColor c => (SetTintColor m c, [])
  | .Enable programs aPerspective aView aModel =>
    let r := Enable VRB_MAX_LIGHTS programs m aPerspective aView aModel
    (r.state, r.calls)
  | .Disable => Disable m
  | .SetLightsEnabled b => (SetLightsEnabled m b, [])
  | .SetUVTransform a => (SetUVTransform m a, [])
  | .InitializeGL => (InitializeGL m, [])
  | .ShutdownGL => (ShutdownGL m, [])

/-- Runs a sequence of calls from `m`: the final state and, for each call in
order, the calls it made to the outside. -/
def run (VRB_MAX_LIGHTS : Nat) (m : State) : List Op → State × List (List GLCall)
  | [] => (m, [])
  | op :: ops =>
    let r := step VRB_MAX_LIGHTS m op
    let rest := run VRB_MAX_LIGHTS r.1 ops
    (rest.1, r.2 :: rest.2)

/-- Whether the calls made by one binder call include a location lookup, that is,
whether `InitializeProgram` resolved locations during it. -/
def resolves (calls : List GLCall) : Bool := calls.any GLCall.isLookup

/-- Whether the call, made in state `m`, keeps every store inside its allocation. -/
def Op.memorySafe (m : State) : Op → Bool
  | .SetBonesCount bonesCount => SetBonesCount.memorySafe bonesCount
  | .SetSkeletonMatrices _ => SetSkeletonMatrices.memorySafe m
  | _ => true

/-- Runs one call when it is memory safe; `none` when the call stores outside an
allocation or through `nullptr`, where the source has no defined behaviour. -/
def stepChecked (VRB_MAX_LIGHTS : Nat) (m : State) (op : Op) : Option (State × List GLCall) :=
  if op.memorySafe m then some (step VRB_MAX_LIGHTS m op) else none

/-- Runs a sequence of calls from `m`, stopping with `none` at the first call that
is not memory safe. -/
def runChecked (VRB_MAX_LIGHTS : Nat) (m : State) : List Op → Option (State × List (List GLCall))
  | [] => some (m, [])
  | op :: ops =>
    match stepChecked VRB_MAX_LIGHTS m op with
    | none => none
    | some r =>
      match runChecked VRB_MAX_LIGHTS r.1 ops with
      | none => none
      | some rest => some (rest.1, r.2 :: rest.2)

/-- Whether a call is a `glUniformMatrix4fv` that reads exactly the cells `cells`. -/
def uploadsCells (cells : List Cell) : GLCall → Bool
  | .glUniformMatrix4fv _ _ _ value => decide (value = cells)
  | _ => false

/-- Appends the lights of `ls` one `AddLight` call after the other. -/
def AddLights (m : State) (ls : List Light) : State :=
  ls.foldl (fun s l => AddLight s l.direction l.ambient l.diffuse l.specular) m

/-! ## The upload order as the specification words it -/

/-- The state and the lookups after the activation step of a successful `Enable`:
`InitializeProgram` runs when the cache is dirty, nothing happens otherwise. -/
def afterActivation (VRB_MAX_LIGHTS : Nat) (programs : Programs) (m : State) :
    State × List GLCall :=
  if m.updateProgram then m.InitializeProgram VRB_MAX_LIGHTS programs else (m, [])

/-- The active lights: the whole collection when lights are enabled, none otherwise. -/
def activeLights (m : State) : List Light :=
  if m.lightsEnabled then m.lights else []

/-- The four uniform writes of one light addressed to light slot `k`, in the order
direction, ambient, diffuse, specular. -/
def lightUniforms (uLights : List ULight) (k : Nat) (light : Light) : List GLCall :=
  [ GLCall.glUniform3f ((uLights[k]?).map (·.direction))
      light.direction.x light.direction.y light.direction.z,
    GLCall.glUniform4fv ((uLights[k]?).map (·.ambient)) 1 light.ambient,
    GLCall.glUniform4fv ((uLights[k]?).map (·.diffuse)) 1 light.diffuse,
    GLCall.glUniform4fv ((uLights[k]?).map (·.specular)) 1 light.specular ]

/-- The upload order after the light count: material ambient, diffuse, specular,
specular exponent; then, only if a texture is set, texture unit 0, bind, sampler
uniform 0; then tint color; then perspective, view, model; then, only if the UV
transform is enabled, the UV-transform matrix; then, only if a skeleton buffer
exists with `bonesCount > 0` and the bone uniform location is resolved, the
bone-matrix array. -/
def uploadAfterLights (m : State) (aPerspective aView aModel : Matrix) : List GLCall :=
  [ GLCall.glUniform4fv (some m.uMatterialAmbient) 1 m.ambient,
    GLCall.glUniform4fv (some m.uMatterialDiffuse) 1 m.diffuse,
    GLCall.glUniform4fv (some m.uMatterialSpecular) 1 m.specular,
    GLCall.glUniform1f (some m.uMatterialSpecularExponent) m.specularExponent ]
  ++ (match m.texture with
      | some t =>
        [ GLCall.glActiveTexture GL_TEXTURE0,
          GLCall.textureBind t,
          GLCall.glUniform1i (some m.uTexture0) 0 ]
      | none => [])
  ++ [ GLCall.glUniform4f (some m.uTintColor)
         m.tintColor.Red m.tintColor.Green m.tintColor.Blue m.tintColor.Alpha ]
  ++ [ GLCall.glUniformMatrix4fv (some m.uPerspective) 1 false aPerspective.Data,
       GLCall.glUniformMatrix4fv (some m.uView) 1 false aView.Data,
       GLCall.glUniformMatrix4fv (some m.uModel) 1 false aModel.Data ]
  ++ (if m.uvTransformEnabled then
        [GLCall.glUniformMatrix4fv (some m.uUVTransform) 1 false m.uvTransform.Data]
      else [])
  ++ (match m.skeletonMatrices with
      | some buf =>
        if m.bonesCount > 0 ∧ m.uBoneMats ≥ 0 then
          [ GLCall.glUniformMatrix4fv (some m.uBoneMats) m.bonesCount false
              (readCells buf (16 * m.bonesCount)) ]
        else []
      | none => [])

/-- The whole upload order of one `Enable`, worded as in the specification: the
uniforms of each active light in append order, the k-th light addressed to slot
`k`; then the light count; then the rest. -/
def uploadOrder (m : State) (aPerspective aView aModel : Matrix) : List GLCall :=
  (activeLights m).enum.flatMap (fun kl => lightUniforms m.uLights kl.1 kl.2)
  ++ [GLCall.glUniform1i (some m.uLightCount) (activeLights m).length]
  ++ uploadAfterLights m aPerspective aView aModel

/-- The four uniform writes of light `l` addressed to the cached locations `u` of
one light slot, in the order direction, ambient, diffuse, specular. -/
def slotUniforms (u : ULight) (l : Light) : List GLCall :=
  [ GLCall.glUniform3f (some u.direction) l.direction.x l.direction.y l.direction.z,
    GLCall.glUniform4fv (some u.ambient) 1 l.ambient,
    GLCall.glUniform4fv (some u.diffuse) 1 l.diffuse,
    GLCall.glUniform4fv (some u.specular) 1 l.specular ]

/-- The upload order from the material uniforms up to the last single matrix
(model, or the UV transform when enabled): everything after the light count
except the bone-matrix array. -/
def uploadBeforeBones (m : State) (aPerspective aView aModel : Matrix) : List GLCall :=
  [ GLCall.glUniform4fv (some m.uMatterialAmbient) 1 m.ambient,
    GLCall.glUniform4fv (some m.uMatterialDiffuse) 1 m.diffuse,
    GLCall.glUniform4fv (some m.uMatterialSpecular) 1 m.specular,
    GLCall.glUniform1f (some m.uMatterialSpecularExponent) m.specularExponent ]
  ++ (match m.texture with
      | some t =>
        [ GLCall.glActiveTexture GL_TEXTURE0,
          GLCall.textureBind t,
          GLCall.glUniform1i (some m.uTexture0) 0 ]
      | none => [])
  ++ [ GLCall.glUniform4f (some m.uTintColor)
         m.tintColor.Red m.tintColor.Green m.tintColor.Blue m.tintColor.Alpha ]
  ++ [ GLCall.glUniformMatrix4fv (some m.uPerspective) 1 false aPerspective.Data,
       GLCall.glUniformMatrix4fv (some m.uView) 1 false aView.Data,
       GLCall.glUniformMatrix4fv (some m.uModel) 1 false aModel.Data ]
  ++ (if m.uvTransformEnabled then
        [GLCall.glUniformMatrix4fv (some m.uUVTransform) 1 false m.uvTransform.Data]
      else [])

/-- The four lookups of light slot `i` in `InitializeProgram`, in the order
direction, ambient, diffuse, specular, with the names written out. -/
def slotLookups (p : ProgramAddr) (i : Nat) : List GLCall :=
  [ GLCall.getUniformLocation p ("u_lights[" ++ toString i ++ "]." ++ "direction"),
    GLCall.getUniformLocation p ("u_lights[" ++ toString i ++ "]." ++ "ambient"),
    GLCall.getUniformLocation p ("u_lights[" ++ toString i ++ "]." ++ "diffuse"),
    GLCall.getUniformLocation p ("u_lights[" ++ toString i ++ "]." ++ "specular") ]

/-- The locations a program answers for the four uniforms of light slot `i`. -/
def slotLocations (program : Program) (i : Nat) : ULight :=
  { direction := program.GetUniformLocation ("u_lights[" ++ toString i ++ "]." ++ "direction")
    ambient := program.GetUniformLocation ("u_lights[" ++ toString i ++ "]." ++ "ambient")
    diffuse := program.GetUniformLocation ("u_lights[" ++ toString i ++ "]." ++ "diffuse")
    specular := program.GetUniformLocation ("u_lights[" ++ toString i ++ "]." ++ "specular") }

/-! ## The skeleton-buffer invariant -/

/-- Number of floats held by the owned skeleton buffer; no buffer holds none. -/
def skeletonFloats (m : State) : Nat :=
  match m.skeletonMatrices with
  | none => 0
  | some buf => buf.length

/-- The invariant as the specification states it: the owned buffer holds exactly
`16 * bonesCount` floats. -/
def SkeletonSized (m : State) : Prop := skeletonFloats m = 16 * m.bonesCount

instance (m : State) : Decidable (SkeletonSized m) :=
  inferInstanceAs (Decidable (skeletonFloats m = 16 * m.bonesCount))

/-! ## Sample inputs -/

/-- A linked program that activates; locations are derived from the name length. -/
def sampleProgram : Program :=
  { GetProgram := 7
    Enable := true
    GetUniformLocation := fun name => name.length
    GetAttributeLocation := fun name => 100 + name.length
    SupportsFeatures := fun _ => true }

/-- A program whose activation fails. -/
def failingProgram : Program :=
  { GetProgram := 0
    Enable := false
    GetUniformLocation := fun _ => -1
    GetAttributeLocation := fun _ => -1
    SupportsFeatures := fun _ => false }

/-- A linked program whose every location is 1000 plus the name length, so that
none of its answers coincides with an answer of `sampleProgram`. -/
def otherProgram : Program :=
  { GetProgram := 9
    Enable := true
    GetUniformLocation := fun name => 1000 + name.length
    GetAttributeLocation := fun name => 1100 + name.length
    SupportsFeatures := fun _ => false }

/-- Program objects: `sampleProgram` at address 1, `otherProgram` elsewhere. -/
def samplePrograms : Programs := fun p => if p = 1 then sampleProgram else otherProgram

/-- A 2D texture. -/
def sampleTexture : Texture := { name := 1, GetTarget := GL_TEXTURE_2D }

/-- A freshly constructed binder with two light slots. -/
def sampleState : State := State.init 2 ⟨0, 0, 0, 1⟩

/-- A binder that holds a texture and has resolved its cache against program 1. -/
def texturedBound : State :=
  (Enable 2 samplePrograms (SetProgram (SetTexture sampleState (some sampleTexture)) (some 1))
    Matrix.Identity Matrix.Identity Matrix.Identity).state

/-- The call `Enable` on `texturedBound` after its texture was removed and program 2
was set. -/
def reboundWithoutTexture : EnableResult :=
  Enable 2 samplePrograms (SetProgram (SetTexture texturedBound none) (some 2))
    Matrix.Identity Matrix.Identity Matrix.Identity

/-- A binder with one bone that has resolved its cache against program 1. -/
def skinnedBound : State :=
  (Enable 2 samplePrograms (SetProgram (SetBonesCount sampleState 1) (some 1))
    Matrix.Identity Matrix.Identity Matrix.Identity).state

/-- The call `Enable` on `skinnedBound` after `ShutdownGL` and `SetProgram` of
program 2. -/
def reboundAfterShutdown : EnableResult :=
  Enable 2 samplePrograms (SetProgram (ShutdownGL skinnedBound) (some 2))
    Matrix.Identity Matrix.Identity Matrix.Identity

/-- The call `Enable` that follows `reboundAfterShutdown` once `SetBonesCount(1)` has
given the binder a skeleton buffer again. -/
def skinnedAgain : EnableResult :=
  Enable 2 samplePrograms (SetBonesCount reboundAfterShutdown.state 1)
    Matrix.Identity Matrix.Identity Matrix.Identity

/-- Sixteen floats that are not the identity matrix. -/
def sampleMatrix16 : List GLfloat := [2, 0, 0, 0, 0, 2, 0, 0, 0, 0, 2, 0, 0, 0, 0, 2]

/-- A binder without skeleton that has resolved its cache against program 1. -/
def plainBound : State :=
  (Enable 2 samplePrograms (SetProgram sampleState (some 1))
    Matrix.Identity Matrix.Identity Matrix.Identity).state

/-- The call `Enable` on `plainBound` after `SetBonesCount(1)` and
`SetSkeletonMatrices(sampleMatrix16)`. -/
def skinnedWhileBound : EnableResult :=
  Enable 2 samplePrograms (SetSkeletonMatrices (SetBonesCount plainBound 1) sampleMatrix16)
    Matrix.Identity Matrix.Identity Matrix.Identity

/-- A light. -/
def sampleLight : Light :=
  { direction := ⟨1, 2, 3⟩, ambient := ⟨1, 0, 0, 1⟩, diffuse := ⟨0, 1, 0, 1⟩,
    specular := ⟨0, 0, 1, 1⟩ }

/-! ## Auxiliary facts -/

theorem Enable.lightsLoop_eq (uLights : List ULight) (ls : List Light) (k : Nat) :
    Enable.lightsLoop uLights ls k =
      ((ls.enumFrom k).flatMap (fun kl => lightUniforms uLights kl.1 kl.2), k + ls.length) := by
  induction ls generalizing k with
  | nil => simp [Enable.lightsLoop]
  | cons l ls ih =>
    simp [Enable.lightsLoop, ih, List.enumFrom_cons, lightUniforms]
    omega

theorem Enable_calls_eq (VRB_MAX_LIGHTS : Nat) (programs : Programs) (m : State) (p : ProgramAddr)
    (aPerspective aView aModel : Matrix)
    (hp : m.program = some p) (ha : (programs p).Enable = true) :
    (Enable VRB_MAX_LIGHTS programs m aPerspective aView aModel).result = true ∧
    (Enable VRB_MAX_LIGHTS programs m aPerspective aView aModel).state =
      (afterActivation VRB_MAX_LIGHTS programs m).1 ∧
    (Enable VRB_MAX_LIGHTS programs m aPerspective aView aModel).calls =
      GLCall.programEnable p :: ((afterActivation VRB_MAX_LIGHTS programs m).2 ++
        uploadOrder (afterActivation VRB_MAX_LIGHTS programs m).1 aPerspective aView aModel) := by
  refine ⟨by simp [Enable, hp, ha], by simp [Enable, hp, ha, afterActivation], ?_⟩
  simp only [Enable, hp, ha, afterActivation, uploadOrder, uploadAfterLights, activeLights,
    Enable.lightsLoop_eq, List.enum]
  cases h : (if m.updateProgram = true then State.InitializeProgram VRB_MAX_LIGHTS programs m
    else (m, [])).1.lightsEnabled <;> simp [h]


theorem InitializeProgram.lightsLoop_fold_length (p : ProgramAddr) (program : Program)
    (ixs : List Nat) (acc : List ULight × List GLCall) :
    ((ixs.foldl
      (fun (acc : List ULight × List GLCall) ix =>
        (acc.1.set ix
            { direction := program.GetUniformLocation ("u_lights[" ++ toString ix ++ "]." ++ "direction")
              ambient := program.GetUniformLocation ("u_lights[" ++ toString ix ++ "]." ++ "ambient")
              diffuse := program.GetUniformLocation ("u_lights[" ++ toString ix ++ "]." ++ "diffuse")
              specular := program.GetUniformLocation ("u_lights[" ++ toString ix ++ "]." ++ "specular") },
          acc.2 ++
            [ GLCall.getUniformLocation p ("u_lights[" ++ toString ix ++ "]." ++ "direction"),
              GLCall.getUniformLocation p ("u_lights[" ++ toString ix ++ "]." ++ "ambient"),
              GLCall.getUniformLocation p ("u_lights[" ++ toString ix ++ "]." ++ "diffuse"),
              GLCall.getUniformLocation p ("u_lights[" ++ toString ix ++ "]." ++ "specular") ]))
      acc).1.length = acc.1.length) ∧
    ((∀ c ∈ acc.2, c.isLookup = true) → ∀ c ∈ (ixs.foldl
      (fun (acc : List ULight × List GLCall) ix =>
        (acc.1.set ix
            { direction := program.GetUniformLocation ("u_lights[" ++ toString ix ++ "]." ++ "direction")
              ambient := program.GetUniformLocation ("u_lights[" ++ toString ix ++ "]." ++ "ambient")
              diffuse := program.GetUniformLocation ("u_lights[" ++ toString ix ++ "]." ++ "diffuse")
              specular := program.GetUniformLocation ("u_lights[" ++ toString ix ++ "]." ++ "specular") },
          acc.2 ++
            [ GLCall.getUniformLocation p ("u_lights[" ++ toString ix ++ "]." ++ "direction"),
              GLCall.getUniformLocation p ("u_lights[" ++ toString ix ++ "]." ++ "ambient"),
              GLCall.getUniformLocation p ("u_lights[" ++ toString ix ++ "]." ++ "diffuse"),
              GLCall.getUniformLocation p ("u_lights[" ++ toString ix ++ "]." ++ "specular") ]))
      acc).2, c.isLookup = true) := by
  induction ixs generalizing acc with
  | nil => simp
  | cons ix ixs ih =>
    simp only [List.foldl_cons]
    constructor
    · rw [(ih _).1]; simp
    · intro h
      apply (ih _).2
      intro c hc
      simp only [List.mem_append, List.mem_cons, List.mem_singleton, List.not_mem_nil, or_false] at hc
      rcases hc with hc | hc | hc | hc | hc
      · exact h c hc
      all_goals subst hc; rfl

theorem InitializeProgram.lightsLoop_length (n : Nat) (p : ProgramAddr) (program : Program)
    (uLights : List ULight) :
    (State.InitializeProgram.lightsLoop n p program uLights).1.length = uLights.length :=
  (InitializeProgram.lightsLoop_fold_length p program (List.range n) (uLights, [])).1

theorem InitializeProgram.lightsLoop_isLookup (n : Nat) (p : ProgramAddr) (program : Program)
    (uLights : List ULight) :
    ∀ c ∈ (State.InitializeProgram.lightsLoop n p program uLights).2, c.isLookup = true :=
  (InitializeProgram.lightsLoop_fold_length p program (List.range n) (uLights, [])).2 (by simp)

theorem InitializeProgram_isLookup (n : Nat) (programs : Programs) (m : State) :
    ∀ c ∈ (m.InitializeProgram n programs).2, c.isLookup = true := by
  intro c hc
  cases hp : m.program with
  | none => simp [State.InitializeProgram, hp] at hc
  | some p =>
    by_cases hz : (programs p).GetProgram = 0
    · simp [State.InitializeProgram, hp, hz] at hc
    · simp only [State.InitializeProgram, hp, hz, if_false, List.mem_append] at hc
      have hl := InitializeProgram.lightsLoop_isLookup n p (programs p) m.uLights c
      rcases hc with (((((((hc | hc) | hc) | hc) | hc) | hc) | hc) | hc) | hc
      all_goals first
        | exact hl hc
        | (simp at hc; rcases hc with rfl | rfl | rfl | rfl <;> rfl)
        | (split_ifs at hc <;> first
            | (simp at hc; done)
            | (simp at hc; rcases hc with rfl | rfl | rfl | rfl <;> rfl))

theorem InitializeProgram_updateProgram (n : Nat) (programs : Programs) (m : State)
    (h : (m.InitializeProgram n programs).2 ≠ []) :
    (m.InitializeProgram n programs).1.updateProgram = false := by
  cases hp : m.program with
  | none => simp [State.InitializeProgram, hp] at h
  | some p =>
    by_cases hz : (programs p).GetProgram = 0
    · simp [State.InitializeProgram, hp, hz] at h
    · simp [State.InitializeProgram, hp, hz]

theorem InitializeProgram_unlinked (n : Nat) (programs : Programs) (m : State) (p : ProgramAddr)
    (hp : m.program = some p) (hz : (programs p).GetProgram = 0) :
    m.InitializeProgram n programs = (m, []) := by
  simp [State.InitializeProgram, hp, hz]

theorem Enable_result_true (n : Nat) (programs : Programs) (m : State)
    (aPerspective aView aModel : Matrix)
    (h : (Enable n programs m aPerspective aView aModel).result = true) :
    ∃ p, m.program = some p ∧ (programs p).Enable = true := by
  cases hp : m.program with
  | none => simp [Enable, hp] at h
  | some p =>
    refine ⟨p, rfl, ?_⟩
    cases ha : (programs p).Enable with
    | false => simp [Enable, hp, ha] at h
    | true => rfl

theorem uploadOrder_not_lookup (m : State) (aPerspective aView aModel : Matrix) :
    ∀ c ∈ uploadOrder m aPerspective aView aModel, c.isLookup = false := by
  intro c hc
  simp only [uploadOrder, uploadAfterLights, lightUniforms, List.mem_append, List.mem_flatMap,
    List.mem_cons, List.mem_singleton, List.not_mem_nil, or_false] at hc
  rcases hc with ((⟨kl, -, hc⟩ | hc) | hc)
  · rcases hc with rfl | rfl | rfl | rfl <;> rfl
  · subst hc; rfl
  · rcases hc with ((((hc | hc) | hc) | hc) | hc) | hc
    · rcases hc with rfl | rfl | rfl | rfl <;> rfl
    · split at hc
      · simp at hc
        rcases hc with rfl | rfl | rfl <;> rfl
      · simp at hc
    · subst hc; rfl
    · rcases hc with rfl | rfl | rfl <;> rfl
    · split_ifs at hc
      · simp at hc
        subst hc; rfl
      · simp at hc
    · split at hc
      · split_ifs at hc
        · simp at hc
          subst hc; rfl
        · simp at hc
      · simp at hc

theorem resolves_eq_false_iff (calls : List GLCall) :
    resolves calls = false ↔ ∀ c ∈ calls, c.isLookup = false := by
  simp [resolves]

theorem Enable_bound (n : Nat) (programs : Programs) (m : State)
    (aPerspective aView aModel : Matrix) (h : m.updateProgram = false) :
    (Enable n programs m aPerspective aView aModel).state = m ∧
    resolves (Enable n programs m aPerspective aView aModel).calls = false := by
  cases hp : m.program with
  | none => simp [Enable, hp, resolves]
  | some p =>
    cases ha : (programs p).Enable with
    | false => simp [Enable, hp, ha, resolves, GLCall.isLookup]
    | true =>
      obtain ⟨-, hs, hc⟩ := Enable_calls_eq n programs m p aPerspective aView aModel hp ha
      have hA : afterActivation n programs m = (m, []) := by simp [afterActivation, h]
      rw [hA] at hs hc
      refine ⟨hs, ?_⟩
      rw [resolves_eq_false_iff, hc]
      intro c hc'
      simp only [List.mem_cons, List.nil_append] at hc'
      rcases hc' with rfl | hc'
      · rfl
      · exact uploadOrder_not_lookup m aPerspective aView aModel c hc'

theorem Enable_resolves (n : Nat) (programs : Programs) (m : State)
    (aPerspective aView aModel : Matrix)
    (h : resolves (Enable n programs m aPerspective aView aModel).calls = true) :
    (Enable n programs m aPerspective aView aModel).state.updateProgram = false := by
  cases hd : m.updateProgram with
  | false =>
    have := (Enable_bound n programs m aPerspective aView aModel hd).1
    rw [this]; exact hd
  | true =>
    cases hp : m.program with
    | none => simp [Enable, hp, resolves] at h
    | some p =>
      cases ha : (programs p).Enable with
      | false => simp [Enable, hp, ha, resolves, GLCall.isLookup] at h
      | true =>
        obtain ⟨-, hs, hc⟩ := Enable_calls_eq n programs m p aPerspective aView aModel hp ha
        have hA : afterActivation n programs m = m.InitializeProgram n programs := by
          simp [afterActivation, hd]
        rw [hA] at hs hc
        rw [hs]
        apply InitializeProgram_updateProgram
        intro hnil
        rw [hc, hnil] at h
        have hno : resolves (GLCall.programEnable p :: ([] ++
            uploadOrder (State.InitializeProgram n programs m).1 aPerspective aView aModel))
            = false := by
          rw [resolves_eq_false_iff]
          intro c hc'
          simp only [List.mem_cons, List.nil_append] at hc'
          rcases hc' with rfl | hc'
          · rfl
          · exact uploadOrder_not_lookup _ aPerspective aView aModel c hc'
        rw [hno] at h
        exact Bool.noConfusion h

theorem step_bound (n : Nat) (m : State) (op : Op) (h : m.updateProgram = false)
    (h1 : op.isSetProgram = false) (h2 : op.isShutdownGL = false) :
    (step n m op).1.updateProgram = false ∧ resolves (step n m op).2 = false := by
  cases op with
  | SetProgram a => simp [Op.isSetProgram] at h1
  | ShutdownGL => simp [Op.isShutdownGL] at h2
  | Enable programs aPerspective aView aModel =>
    have := Enable_bound n programs m aPerspective aView aModel h
    simp only [step]
    rw [this.1]
    exact ⟨h, this.2⟩
  | Disable =>
    simp only [step, Disable]
    split <;> simp [h, resolves, GLCall.isLookup]
  | SetSkeletonMatrices matrices =>
    simp only [step, SetSkeletonMatrices]
    split <;> simp [h, resolves]
  | _ => simp [step, h, resolves, ResetLights, AddLight, SetMaterial, SetAmbient, SetDiffuse,
      SetBonesCount, SetTexture, SetTintColor, SetLightsEnabled, SetUVTransform, InitializeGL]

theorem step_resolves (n : Nat) (m : State) (op : Op)
    (h : resolves (step n m op).2 = true) :
    (step n m op).1.updateProgram = false := by
  cases op with
  | Enable programs aPerspective aView aModel =>
    exact Enable_resolves n programs m aPerspective aView aModel h
  | Disable =>
    simp only [step, Disable] at h
    split at h <;> simp [resolves, GLCall.isLookup] at h
  | _ => simp [step, resolves] at h

theorem run_bound (n : Nat) (ops : List Op) (m : State) (h : m.updateProgram = false)
    (hops : ∀ op ∈ ops, op.isSetProgram = false ∧ op.isShutdownGL = false) :
    ∀ calls ∈ (run n m ops).2, resolves calls = false := by
  induction ops generalizing m with
  | nil => simp [run]
  | cons op ops ih =>
    have hop := hops op (List.mem_cons_self _ _)
    have hstep := step_bound n m op h hop.1 hop.2
    intro calls hc
    simp only [run, List.mem_cons] at hc
    rcases hc with rfl | hc
    · exact hstep.2
    · exact ih _ hstep.1 (fun o ho => hops o (List.mem_cons_of_mem _ ho)) calls hc

theorem run_resolves_count (n : Nat) (ops : List Op) (m : State)
    (hops : ∀ op ∈ ops, op.isSetProgram = false ∧ op.isShutdownGL = false) :
    ((run n m ops).2.filter resolves).length ≤ 1 := by
  induction ops generalizing m with
  | nil => simp [run]
  | cons op ops ih =>
    have hrest : ∀ o ∈ ops, o.isSetProgram = false ∧ o.isShutdownGL = false :=
      fun o ho => hops o (List.mem_cons_of_mem _ ho)
    simp only [run]
    cases hr : resolves (step n m op).2 with
    | false =>
      rw [List.filter_cons_of_neg (by simp [hr])]
      exact ih _ hrest
    | true =>
      rw [List.filter_cons_of_pos hr]
      have hb := run_bound n ops _ (step_resolves n m op hr) hrest
      have hnil : (run n (step n m op).1 ops).2.filter resolves = [] := by
        rw [List.filter_eq_nil_iff]
        intro calls hc
        simp [hb calls hc]
      simp [hnil]

theorem InitializeProgram_frame (n : Nat) (programs : Programs) (m : State) :
    (m.InitializeProgram n programs).1.lights = m.lights ∧
    (m.InitializeProgram n programs).1.lightsEnabled = m.lightsEnabled ∧
    (m.InitializeProgram n programs).1.uLights.length = m.uLights.length ∧
    (m.InitializeProgram n programs).1.skeletonMatrices = m.skeletonMatrices ∧
    (m.InitializeProgram n programs).1.bonesCount = m.bonesCount ∧
    (m.InitializeProgram n programs).1.texture = m.texture ∧
    (m.InitializeProgram n programs).1.program = m.program := by
  cases hp : m.program with
  | none => simp [State.InitializeProgram, hp]
  | some p =>
    by_cases hz : (programs p).GetProgram = 0
    · simp [State.InitializeProgram, hp, hz]
    · simp [State.InitializeProgram, hp, hz, InitializeProgram.lightsLoop_length]

theorem afterActivation_frame (n : Nat) (programs : Programs) (m : State) :
    (afterActivation n programs m).1.lights = m.lights ∧
    (afterActivation n programs m).1.lightsEnabled = m.lightsEnabled ∧
    (afterActivation n programs m).1.uLights.length = m.uLights.length ∧
    (afterActivation n programs m).1.skeletonMatrices = m.skeletonMatrices ∧
    (afterActivation n programs m).1.bonesCount = m.bonesCount ∧
    (afterActivation n programs m).1.texture = m.texture ∧
    (afterActivation n programs m).1.program = m.program := by
  unfold afterActivation
  split
  · exact InitializeProgram_frame n programs m
  · simp

theorem AddLights_frame (ls : List Light) (m : State) :
    (AddLights m ls).lights = m.lights ++ ls ∧
    (AddLights m ls).lightsEnabled = m.lightsEnabled ∧
    (AddLights m ls).uLights = m.uLights ∧
    (AddLights m ls).program = m.program ∧
    (AddLights m ls).updateProgram = m.updateProgram := by
  induction ls generalizing m with
  | nil => simp [AddLights]
  | cons l ls ih =>
    obtain ⟨h1, h2, h3, h4, h5⟩ := ih (AddLight m l.direction l.ambient l.diffuse l.specular)
    simp only [AddLights, List.foldl_cons] at h1 h2 h3 h4 h5 ⊢
    refine ⟨?_, ?_, ?_, ?_, ?_⟩
    · rw [h1]; simp [AddLight]
    · rw [h2]; rfl
    · rw [h3]; rfl
    · rw [h4]; rfl
    · rw [h5]; rfl

theorem lightUniforms_in_range (us : List ULight) (ls : List Light) (k : Nat)
    (h : k + ls.length ≤ us.length) :
    (ls.enumFrom k).flatMap (fun kl => lightUniforms us kl.1 kl.2) =
      (List.zip ((us.drop k).take ls.length) ls).flatMap (fun ul => slotUniforms ul.1 ul.2) := by
  induction ls generalizing k with
  | nil => simp
  | cons l ls ih =>
    simp only [List.length_cons] at h
    have hk : k < us.length := by omega
    rw [List.drop_eq_getElem_cons hk]
    simp only [List.enumFrom_cons, List.flatMap_cons, List.length_cons, List.take_succ_cons,
      List.zip_cons_cons]
    rw [ih (k + 1) (by omega)]
    simp [lightUniforms, slotUniforms, List.getElem?_eq_getElem hk]


theorem isLookup_other (c : GLCall) (h : c.isLookup = true) :
    c.outOfRange = false ∧ c.isUniform3f = false ∧ ∀ loc v, c ≠ GLCall.glUniform1i loc v := by
  cases c <;> first
    | (simp [GLCall.isLookup] at h; done)
    | simp [GLCall.outOfRange, GLCall.isUniform3f]

theorem uploadAfterLights_other (m : State) (aPerspective aView aModel : Matrix) :
    ∀ c ∈ uploadAfterLights m aPerspective aView aModel,
      c.outOfRange = false ∧ c.isUniform3f = false ∧
      ∀ loc v, c = GLCall.glUniform1i loc v → v = 0 := by
  intro c hc
  simp only [uploadAfterLights, List.mem_append] at hc
  rcases hc with ((((hc | hc) | hc) | hc) | hc) | hc
  all_goals first
    | (simp at hc; rcases hc with rfl | rfl | rfl | rfl <;>
        simp [GLCall.outOfRange, GLCall.isUniform3f])
    | (split at hc <;> first
        | (simp at hc; done)
        | (simp at hc; rcases hc with rfl | rfl | rfl | rfl <;>
            simp [GLCall.outOfRange, GLCall.isUniform3f])
        | (split_ifs at hc <;> first
            | (simp at hc; done)
            | (simp at hc; subst hc; simp [GLCall.outOfRange, GLCall.isUniform3f])))

theorem slotUniforms_other (us : List ULight) (ls : List Light) :
    (∀ c ∈ (List.zip us ls).flatMap (fun ul => slotUniforms ul.1 ul.2),
      c.outOfRange = false ∧ ∀ loc v, c ≠ GLCall.glUniform1i loc v) ∧
    ((List.zip us ls).flatMap (fun ul => slotUniforms ul.1 ul.2)).countP GLCall.isUniform3f =
      (List.zip us ls).length := by
  constructor
  · intro c hc
    simp only [List.mem_flatMap, slotUniforms, List.mem_cons, List.mem_singleton,
      List.not_mem_nil, or_false] at hc
    obtain ⟨ul, -, hc⟩ := hc
    rcases hc with rfl | rfl | rfl | rfl <;> simp [GLCall.outOfRange]
  · induction us generalizing ls with
    | nil => simp
    | cons u us ih =>
      cases ls with
      | nil => simp
      | cons l ls =>
        simp only [List.zip_cons_cons, List.flatMap_cons, List.countP_append, ih ls,
          List.length_cons]
        simp [slotUniforms, List.countP_cons, GLCall.isUniform3f]
        omega

theorem countP_eq_zero_of_forall (p : GLCall → Bool) (l : List GLCall)
    (h : ∀ c ∈ l, p c = false) : l.countP p = 0 := by
  rw [List.countP_eq_zero]
  intro c hc
  simp [h c hc]


theorem memcpyFloats_length (dst : List Cell) (st : MemStore) (src : List GLfloat) :
    (memcpyFloats dst st src).length = dst.length := by
  simp [memcpyFloats]

theorem memcpyFloats_fold_length (stores : List MemStore) (src : List GLfloat) (dst : List Cell) :
    (stores.foldl (fun buf st => memcpyFloats buf st src) dst).length = dst.length := by
  induction stores generalizing dst with
  | nil => rfl
  | cons st stores ih => simp [ih, memcpyFloats_length]

theorem memcpyFloats_whole (dst : List Cell) (src : List GLfloat) (n : Nat)
    (hd : dst.length = n) (hs : n ≤ src.length) :
    memcpyFloats dst { offset := 0, count := n } src = (src.take n).map some := by
  apply List.ext_getElem
  · simp [memcpyFloats, hd, hs]
  · intro k h1 h2
    simp [memcpyFloats, hd] at h1 ⊢
    simp [h1, List.getElem?_eq_getElem (Nat.lt_of_lt_of_le h1 hs)]

theorem readCells_whole (buf : List Cell) (n : Nat) (h : buf.length = n) :
    readCells buf n = buf := by
  apply List.ext_getElem
  · simp [readCells, h]
  · intro k h1 h2
    simp [readCells, List.getD_eq_getElem?_getD, List.getElem?_eq_getElem h2]

theorem SetBonesCount_buffer (m : State) (n : Nat) :
    ∃ buf, (SetBonesCount m n).skeletonMatrices = some buf ∧ buf.length = 16 * n ∧
      (SetBonesCount m n).bonesCount = n := by
  refine ⟨_, rfl, ?_, rfl⟩
  rw [memcpyFloats_fold_length]
  simp

theorem SetSkeletonMatrices_length (m : State) (matrices : List GLfloat) :
    skeletonFloats (SetSkeletonMatrices m matrices) = skeletonFloats m ∧
    (SetSkeletonMatrices m matrices).bonesCount = m.bonesCount := by
  unfold SetSkeletonMatrices
  cases h : m.skeletonMatrices with
  | none => simp [h]
  | some buf => simp [skeletonFloats, h, memcpyFloats_length]


theorem uploadOrder_getLast (m : State) (aPerspective aView aModel : Matrix) (buf : List Cell)
    (hb : m.skeletonMatrices = some buf) (hpos : 0 < m.bonesCount) (hloc : 0 ≤ m.uBoneMats)
    (front : List GLCall) :
    (front ++ uploadOrder m aPerspective aView aModel).getLast? =
      some (GLCall.glUniformMatrix4fv (some m.uBoneMats) m.bonesCount false
        (readCells buf (16 * m.bonesCount))) := by
  have hcond : m.bonesCount > 0 ∧ m.uBoneMats ≥ 0 := ⟨hpos, hloc⟩
  simp only [uploadOrder, uploadAfterLights, hb, if_pos hcond]
  simp only [← List.append_assoc]
  rw [List.getLast?_append]
  simp


theorem uploadAfterLights_split (m : State) (aPerspective aView aModel : Matrix) :
    uploadAfterLights m aPerspective aView aModel =
      uploadBeforeBones m aPerspective aView aModel ++
        (match m.skeletonMatrices with
          | some buf =>
            if m.bonesCount > 0 ∧ m.uBoneMats ≥ 0 then
              [ GLCall.glUniformMatrix4fv (some m.uBoneMats) m.bonesCount false
                  (readCells buf (16 * m.bonesCount)) ]
            else []
          | none => []) := by
  simp [uploadAfterLights, uploadBeforeBones]

theorem afterActivation_isLookup (n : Nat) (programs : Programs) (m : State) :
    ∀ c ∈ (afterActivation n programs m).2, c.isLookup = true := by
  intro c hc
  unfold afterActivation at hc
  split at hc
  · exact InitializeProgram_isLookup n programs m c hc
  · simp at hc

theorem InitializeProgram_lightId (n : Nat) (programs : Programs) (m : State) :
    (m.InitializeProgram n programs).1.lightId = m.lightId := by
  cases hp : m.program with
  | none => simp [State.InitializeProgram, hp]
  | some p =>
    by_cases hz : (programs p).GetProgram = 0
    · simp [State.InitializeProgram, hp, hz]
    · simp [State.InitializeProgram, hp, hz]

theorem Enable_state_frame (n : Nat) (programs : Programs) (m : State)
    (aPerspective aView aModel : Matrix) :
    (Enable n programs m aPerspective aView aModel).state.lights = m.lights ∧
    (Enable n programs m aPerspective aView aModel).state.lightId = m.lightId ∧
    (Enable n programs m aPerspective aView aModel).state.skeletonMatrices =
      m.skeletonMatrices := by
  cases hp : m.program with
  | none => simp [Enable, hp]
  | some p =>
    cases ha : (programs p).Enable with
    | false => simp [Enable, hp, ha]
    | true =>
      obtain ⟨-, hs, -⟩ := Enable_calls_eq n programs m p aPerspective aView aModel hp ha
      obtain ⟨hf1, -, -, hf4, -⟩ := afterActivation_frame n programs m
      rw [hs]
      refine ⟨hf1, ?_, hf4⟩
      unfold afterActivation
      split
      · exact InitializeProgram_lightId n programs m
      · rfl

/-- With no active light a successful `Enable` goes from the lookups straight to
the light count 0. -/
theorem Enable_calls_no_lights (n : Nat) (programs : Programs) (m : State)
    (aPerspective aView aModel : Matrix)
    (hact : activeLights (afterActivation n programs m).1 = [])
    (h : (Enable n programs m aPerspective aView aModel).result = true) :
    ∃ p, m.program = some p ∧
      (Enable n programs m aPerspective aView aModel).calls =
        GLCall.programEnable p :: ((afterActivation n programs m).2 ++
          GLCall.glUniform1i
              (some (Enable n programs m aPerspective aView aModel).state.uLightCount) 0 ::
            uploadAfterLights (Enable n programs m aPerspective aView aModel).state
              aPerspective aView aModel) ∧
      (Enable n programs m aPerspective aView aModel).calls.countP GLCall.isUniform3f = 0 := by
  obtain ⟨p, hp, ha⟩ := Enable_result_true n programs m aPerspective aView aModel h
  obtain ⟨-, hs, hc⟩ := Enable_calls_eq n programs m p aPerspective aView aModel hp ha
  have hcalls : (Enable n programs m aPerspective aView aModel).calls =
      GLCall.programEnable p :: ((afterActivation n programs m).2 ++
        GLCall.glUniform1i (some (afterActivation n programs m).1.uLightCount) 0 ::
          uploadAfterLights (afterActivation n programs m).1 aPerspective aView aModel) := by
    rw [hc]
    simp [uploadOrder, hact]
  refine ⟨p, hp, ?_, ?_⟩
  · rw [hcalls, hs]
  · rw [hcalls]
    apply countP_eq_zero_of_forall
    intro c hc'
    simp only [List.mem_cons, List.mem_append] at hc'
    rcases hc' with rfl | hc' | rfl | hc'
    · rfl
    · exact (isLookup_other c (afterActivation_isLookup n programs m c hc')).2.1
    · rfl
    · exact (uploadAfterLights_other _ _ _ _ c hc').2.1


theorem step_lights (n : Nat) (m : State) (op : Op)
    (h1 : op.isAddLight = false) (h2 : op.isResetLights = false) :
    (step n m op).1.lights = m.lights ∧ (step n m op).1.lightId = m.lightId := by
  cases op with
  | AddLight d a di s => simp [Op.isAddLight] at h1
  | ResetLights aId => simp [Op.isResetLights] at h2
  | Enable programs aPerspective aView aModel =>
    have := Enable_state_frame n programs m aPerspective aView aModel
    exact ⟨this.1, this.2.1⟩
  | Disable =>
    simp only [step, Disable]
    split <;> simp
  | SetSkeletonMatrices matrices =>
    simp only [step, SetSkeletonMatrices]
    split <;> simp
  | _ => simp [step, SetProgram, SetMaterial, SetAmbient, SetDiffuse, SetBonesCount, SetTexture,
      SetTintColor, SetLightsEnabled, SetUVTransform, InitializeGL, ShutdownGL]

theorem run_lights (n : Nat) (ops : List Op) (m : State)
    (hops : ∀ op ∈ ops, op.isAddLight = false ∧ op.isResetLights = false) :
    (run n m ops).1.lights = m.lights ∧ (run n m ops).1.lightId = m.lightId := by
  induction ops generalizing m with
  | nil => simp [run]
  | cons op ops ih =>
    have hop := hops op (List.mem_cons_self _ _)
    have hs := step_lights n m op hop.1 hop.2
    have := ih (step n m op).1 (fun o ho => hops o (List.mem_cons_of_mem _ ho))
    simp only [run]
    exact ⟨this.1.trans hs.1, this.2.trans hs.2⟩


theorem step_skeleton_none (n : Nat) (m : State) (op : Op) (h : op.isSetBonesCount = false)
    (hm : m.skeletonMatrices = none) : (step n m op).1.skeletonMatrices = none := by
  cases op with
  | SetBonesCount k => simp [Op.isSetBonesCount] at h
  | Enable programs aPerspective aView aModel =>
    have := (Enable_state_frame n programs m aPerspective aView aModel).2.2
    simp only [step]
    rw [this, hm]
  | Disable =>
    simp only [step, Disable]
    split <;> simp [hm]
  | SetSkeletonMatrices matrices =>
    simp [step, SetSkeletonMatrices, hm]
  | _ => simp [step, hm, SetProgram, ResetLights, AddLight, SetMaterial, SetAmbient, SetDiffuse,
      SetTexture, SetTintColor, SetLightsEnabled, SetUVTransform, InitializeGL, ShutdownGL]

theorem run_skeleton_none (n : Nat) (ops : List Op) (m : State)
    (hops : ∀ op ∈ ops, op.isSetBonesCount = false) (hm : m.skeletonMatrices = none) :
    (run n m ops).1.skeletonMatrices = none := by
  induction ops generalizing m with
  | nil => simpa [run] using hm
  | cons op ops ih =>
    simp only [run]
    exact ih (step n m op).1 (fun o ho => hops o (List.mem_cons_of_mem _ ho))
      (step_skeleton_none n m op (hops op (List.mem_cons_self _ _)) hm)

theorem InitializeProgram_linked (n : Nat) (programs : Programs) (m : State) (p : ProgramAddr)
    (hp : m.program = some p) (hz : (programs p).GetProgram ≠ 0) :
    GLCall.getUniformLocation p "u_perspective" ∈ (m.InitializeProgram n programs).2 ∧
    (m.InitializeProgram n programs).1.updateProgram = false := by
  simp [State.InitializeProgram, hp, hz]

theorem resolves_of_mem (calls : List GLCall) (c : GLCall) (hc : c ∈ calls)
    (hl : c.isLookup = true) : resolves calls = true := by
  simp only [resolves, List.any_eq_true]
  exact ⟨c, hc, hl⟩


theorem InitializeProgram.lightsLoop_succ (k : Nat) (p : ProgramAddr) (program : Program)
    (us : List ULight) :
    State.InitializeProgram.lightsLoop (k + 1) p program us =
      ((State.InitializeProgram.lightsLoop k p program us).1.set k (slotLocations program k),
        (State.InitializeProgram.lightsLoop k p program us).2 ++ slotLookups p k) := by
  simp [State.InitializeProgram.lightsLoop, List.range_succ, List.foldl_append, slotLocations,
    slotLookups]

theorem InitializeProgram.lightsLoop_prefix (k : Nat) (p : ProgramAddr) (program : Program)
    (us : List ULight) (hk : k ≤ us.length) :
    State.InitializeProgram.lightsLoop k p program us =
      ((List.range k).map (slotLocations program) ++ us.drop k,
        (List.range k).flatMap (slotLookups p)) := by
  induction k with
  | zero => simp [State.InitializeProgram.lightsLoop]
  | succ k ih =>
    have hlt : k < us.length := hk
    rw [InitializeProgram.lightsLoop_succ, ih (Nat.le_of_lt hlt)]
    simp only [List.range_succ, List.map_append, List.map_cons, List.map_nil,
      List.flatMap_append, List.flatMap_cons, List.flatMap_nil, List.append_nil]
    congr 1
    rw [List.set_append_right _ _ (by simp)]
    simp only [List.length_map, List.length_range, Nat.sub_self]
    rw [List.drop_eq_getElem_cons hlt, List.set_cons_zero]
    simp

theorem InitializeProgram.lightsLoop_all (p : ProgramAddr) (program : Program)
    (us : List ULight) :
    State.InitializeProgram.lightsLoop us.length p program us =
      ((List.range us.length).map (slotLocations program),
        (List.range us.length).flatMap (slotLookups p)) := by
  rw [InitializeProgram.lightsLoop_prefix us.length p program us (Nat.le_refl _)]
  simp


theorem SetBonesCount_memorySafe_iff (n : Nat) :
    SetBonesCount.memorySafe n = true ↔ n ≤ 1 := by
  constructor
  · intro h
    by_contra hn
    have hmem : ({ offset := 16 * sizeofFloat * (n - 1), count := 16 * sizeofFloat / sizeofFloat }
        : MemStore) ∈ SetBonesCount.stores n := by
      simp only [SetBonesCount.stores, List.mem_map, List.mem_range]
      exact ⟨n - 1, by omega, rfl⟩
    simp only [SetBonesCount.memorySafe, List.all_eq_true, decide_eq_true_eq] at h
    have := h _ hmem
    simp only [MemStore.inBounds, sizeofFloat] at this
    omega
  · intro h
    have : n = 0 ∨ n = 1 := by omega
    rcases this with rfl | rfl <;> decide

theorem runChecked_eq_run (n : Nat) (ops : List Op) (m : State)
    (r : State × List (List GLCall)) (h : runChecked n m ops = some r) : r = run n m ops := by
  induction ops generalizing m r with
  | nil =>
    simp only [runChecked, Option.some.injEq] at h
    rw [← h]; rfl
  | cons op ops ih =>
    simp only [runChecked, stepChecked] at h
    split at h
    · simp at h
    · rename_i r1 h1
      split at h1
      · simp only [Option.some.injEq] at h1
        subst h1
        split at h
        · simp at h
        · rename_i rest hrest
          have := ih _ _ hrest
          simp only [Option.some.injEq] at h
          rw [← h, this]
          rfl
      · simp at h1

theorem uploadAfterLights_unresolved (m : State) (aPerspective aView aModel : Matrix)
    (h : m.uBoneMats < 0) :
    uploadAfterLights m aPerspective aView aModel =
      uploadBeforeBones m aPerspective aView aModel := by
  rw [uploadAfterLights_split]
  cases hb : m.skeletonMatrices with
  | none => simp
  | some buf =>
    have : ¬ (m.bonesCount > 0 ∧ m.uBoneMats ≥ 0) := by
      intro hc
      exact absurd hc.2 (not_le.mpr h)
    simp [this]

theorem InitializeProgram_linked_state (n : Nat) (programs : Programs) (m : State)
    (p : ProgramAddr) (hp : m.program = some p) (hz : (programs p).GetProgram ≠ 0) :
    (m.InitializeProgram n programs).1.uPerspective =
      (programs p).GetUniformLocation "u_perspective" ∧
    (m.InitializeProgram n programs).1.uView = (programs p).GetUniformLocation "u_view" ∧
    (m.InitializeProgram n programs).1.uModel = (programs p).GetUniformLocation "u_model" ∧
    (m.InitializeProgram n programs).1.uLightCount =
      (programs p).GetUniformLocation "u_lightCount" ∧
    (m.InitializeProgram n programs).1.uMatterialAmbient =
      (programs p).GetUniformLocation "u_material.ambient" ∧
    (m.InitializeProgram n programs).1.uMatterialDiffuse =
      (programs p).GetUniformLocation "u_material.diffuse" ∧
    (m.InitializeProgram n programs).1.uMatterialSpecular =
      (programs p).GetUniformLocation "u_material.specular" ∧
    (m.InitializeProgram n programs).1.uMatterialSpecularExponent =
      (programs p).GetUniformLocation "u_material.specularExponent" ∧
    (m.InitializeProgram n programs).1.uTintColor =
      (programs p).GetUniformLocation "u_tintColor" ∧
    (m.InitializeProgram n programs).1.aPosition =
      (programs p).GetAttributeLocation "a_position" ∧
    (m.InitializeProgram n programs).1.aNormal =
      (programs p).GetAttributeLocation "a_normal" ∧
    (m.uLights.length = n →
      (m.InitializeProgram n programs).1.uLights =
        (List.range n).map (slotLocations (programs p))) := by
  refine ⟨?_, ?_, ?_, ?_, ?_, ?_, ?_, ?_, ?_, ?_, ?_, ?_⟩
  all_goals first
    | (simp only [State.InitializeProgram, hp, hz, if_false]; done)
    | (simp only [State.InitializeProgram, hp, hz, if_false]; rfl)
    | (intro hslots
       have hloop := InitializeProgram.lightsLoop_all p (programs p) m.uLights
       rw [hslots] at hloop
       simp [State.InitializeProgram, hp, hz, hloop])

/-! ## Claims -/

/-- C1. With no program set, `Enable` returns false, makes no call at all and
leaves the binder state as it was, whatever the matrices. -/
theorem Enable_without_program (VRB_MAX_LIGHTS : Nat) (programs : Programs) (m : State)
    (aPerspective aView aModel : Matrix) (h : m.program = none) :
    (Enable VRB_MAX_LIGHTS programs m aPerspective aView aModel).result = false ∧
    (Enable VRB_MAX_LIGHTS programs m aPerspective aView aModel).calls = [] ∧
    (Enable VRB_MAX_LIGHTS programs m aPerspective aView aModel).state = m := by
  simp [Enable, h]

/-- Instance of C1 on a freshly constructed binder. -/
theorem Enable_without_program_witness :
    sampleState.program = none ∧
    ((Enable 2 (fun _ => sampleProgram) sampleState Matrix.Identity Matrix.Identity
        Matrix.Identity).result = false ∧
      (Enable 2 (fun _ => sampleProgram) sampleState Matrix.Identity Matrix.Identity
        Matrix.Identity).calls = [] ∧
      (Enable 2 (fun _ => sampleProgram) sampleState Matrix.Identity Matrix.Identity
        Matrix.Identity).state = sampleState) :=
  ⟨rfl, Enable_without_program 2 (fun _ => sampleProgram) sampleState Matrix.Identity
    Matrix.Identity Matrix.Identity rfl⟩

/-- C2. With a program set and the cache dirty, if the program's activation returns
false then `Enable` returns false, its only call is the activation attempt (no
lookup, no uniform write, no texture call), and the binder state is unchanged, so
it is still dirty and every cached location is as before. -/
theorem Enable_activation_fails (VRB_MAX_LIGHTS : Nat) (programs : Programs) (m : State)
    (p : ProgramAddr) (aPerspective aView aModel : Matrix)
    (hp : m.program = some p) (hd : m.updateProgram = true)
    (ha : (programs p).Enable = false) :
    (Enable VRB_MAX_LIGHTS programs m aPerspective aView aModel).result = false ∧
    (Enable VRB_MAX_LIGHTS programs m aPerspective aView aModel).calls =
      [GLCall.programEnable p] ∧
    (∀ c ∈ (Enable VRB_MAX_LIGHTS programs m aPerspective aView aModel).calls,
      c.isLookup = false ∧ c.isUniformWrite = false ∧ c.isTextureCall = false) ∧
    (Enable VRB_MAX_LIGHTS programs m aPerspective aView aModel).state = m ∧
    (Enable VRB_MAX_LIGHTS programs m aPerspective aView aModel).state.updateProgram = true := by
  simp [Enable, hp, ha, hd, GLCall.isLookup, GLCall.isUniformWrite, GLCall.isTextureCall]

/-- Instance of C2: a fresh binder given a program whose activation fails. -/
theorem Enable_activation_fails_witness :
    (SetProgram sampleState (some 1)).program = some 1 ∧
    (SetProgram sampleState (some 1)).updateProgram = true ∧
    failingProgram.Enable = false ∧
    (Enable 2 (fun _ => failingProgram) (SetProgram sampleState (some 1)) Matrix.Identity
        Matrix.Identity Matrix.Identity).calls = [GLCall.programEnable 1] :=
  ⟨rfl, rfl, rfl,
    (Enable_activation_fails 2 (fun _ => failingProgram) (SetProgram sampleState (some 1)) 1
      Matrix.Identity Matrix.Identity Matrix.Identity rfl rfl rfl).2.1⟩

/-- C3. For a binder whose program is set but unlinked (handle zero), with the
program's activation behaving as the specification has it (it fails on an
unlinked program), `Enable` returns false; its only call is the activation
attempt and the binder state is unchanged. -/
theorem Enable_unlinked_fails (VRB_MAX_LIGHTS : Nat) (programs : Programs) (m : State)
    (p : ProgramAddr) (aPerspective aView aModel : Matrix)
    (hp : m.program = some p) (hz : (programs p).GetProgram = 0)
    (hspec : (programs p).activationAsSpecified) :
    (Enable VRB_MAX_LIGHTS programs m aPerspective aView aModel).result = false ∧
    (Enable VRB_MAX_LIGHTS programs m aPerspective aView aModel).calls =
      [GLCall.programEnable p] ∧
    (Enable VRB_MAX_LIGHTS programs m aPerspective aView aModel).state = m := by
  have ha : (programs p).Enable = false := hspec hz
  simp [Enable, hp, ha]

/-- Instance of C3: a fresh binder given a program with no handle. -/
theorem Enable_unlinked_fails_witness :
    (SetProgram sampleState (some 1)).program = some 1 ∧
    failingProgram.GetProgram = 0 ∧
    failingProgram.activationAsSpecified ∧
    (Enable 2 (fun _ => failingProgram) (SetProgram sampleState (some 1)) Matrix.Identity
        Matrix.Identity Matrix.Identity).result = false :=
  ⟨rfl, rfl, fun _ => rfl,
    (Enable_unlinked_fails 2 (fun _ => failingProgram) (SetProgram sampleState (some 1)) 1
      Matrix.Identity Matrix.Identity Matrix.Identity rfl rfl (fun _ => rfl)).1⟩

/-- C4. In any run of binder calls that contains neither `SetProgram` nor
`ShutdownGL` (the calls between one `SetProgram` and the next), started from any
state: at most one call performs location lookups; a call that performs lookups
leaves the dirty flag cleared; and from the moment the dirty flag is cleared no
later call of the run performs a lookup. -/
theorem resolution_at_most_once (VRB_MAX_LIGHTS : Nat) (m : State) (ops : List Op)
    (hops : ∀ op ∈ ops, op.isSetProgram = false ∧ op.isShutdownGL = false) :
    ((run VRB_MAX_LIGHTS m ops).2.filter resolves).length ≤ 1 ∧
    (∀ pre post, ops = pre ++ post →
      (run VRB_MAX_LIGHTS m pre).1.updateProgram = false →
      ∀ calls ∈ (run VRB_MAX_LIGHTS (run VRB_MAX_LIGHTS m pre).1 post).2,
        resolves calls = false) ∧
    (∀ pre op post, ops = pre ++ op :: post →
      resolves (step VRB_MAX_LIGHTS (run VRB_MAX_LIGHTS m pre).1 op).2 = true →
      (step VRB_MAX_LIGHTS (run VRB_MAX_LIGHTS m pre).1 op).1.updateProgram = false) := by
  refine ⟨run_resolves_count VRB_MAX_LIGHTS ops m hops, ?_, ?_⟩
  · intro pre post hsplit hb
    apply run_bound VRB_MAX_LIGHTS post _ hb
    intro o ho
    exact hops o (by rw [hsplit]; exact List.mem_append_right _ ho)
  · intro pre op post _ hr
    exact step_resolves VRB_MAX_LIGHTS _ op hr

/-- Instance of C4: two `Enable` calls with a light appended in between. -/
theorem resolution_at_most_once_witness :
    (∀ op ∈ [Op.Enable (fun _ => sampleProgram) Matrix.Identity Matrix.Identity Matrix.Identity,
        Op.AddLight sampleLight.direction sampleLight.ambient sampleLight.diffuse
          sampleLight.specular,
        Op.Enable (fun _ => sampleProgram) Matrix.Identity Matrix.Identity Matrix.Identity],
      op.isSetProgram = false ∧ op.isShutdownGL = false) ∧
    ((run 2 (SetProgram sampleState (some 1))
        [Op.Enable (fun _ => sampleProgram) Matrix.Identity Matrix.Identity Matrix.Identity,
          Op.AddLight sampleLight.direction sampleLight.ambient sampleLight.diffuse
            sampleLight.specular,
          Op.Enable (fun _ => sampleProgram) Matrix.Identity Matrix.Identity
            Matrix.Identity]).2.filter resolves).length ≤ 1 :=
  ⟨by decide,
    (resolution_at_most_once 2 (SetProgram sampleState (some 1)) _ (by decide)).1⟩

/-- C5. Whenever `Enable` succeeds, its calls are: the program activation, then the
lookups of the resolution (present only when the cache was dirty, and lookups
only), then exactly the upload order of the specification evaluated on the state
after resolution. -/
theorem Enable_upload_order (VRB_MAX_LIGHTS : Nat) (programs : Programs) (m : State)
    (aPerspective aView aModel : Matrix)
    (h : (Enable VRB_MAX_LIGHTS programs m aPerspective aView aModel).result = true) :
    ∃ p, m.program = some p ∧
      (Enable VRB_MAX_LIGHTS programs m aPerspective aView aModel).state =
        (afterActivation VRB_MAX_LIGHTS programs m).1 ∧
      (Enable VRB_MAX_LIGHTS programs m aPerspective aView aModel).calls =
        GLCall.programEnable p :: ((afterActivation VRB_MAX_LIGHTS programs m).2 ++
          uploadOrder (Enable VRB_MAX_LIGHTS programs m aPerspective aView aModel).state
            aPerspective aView aModel) ∧
      (∀ c ∈ (afterActivation VRB_MAX_LIGHTS programs m).2, c.isLookup = true) ∧
      (∀ c ∈ uploadOrder (Enable VRB_MAX_LIGHTS programs m aPerspective aView aModel).state
          aPerspective aView aModel, c.isLookup = false) := by
  obtain ⟨p, hp, ha⟩ := Enable_result_true VRB_MAX_LIGHTS programs m aPerspective aView aModel h
  obtain ⟨-, hs, hc⟩ := Enable_calls_eq VRB_MAX_LIGHTS programs m p aPerspective aView aModel hp ha
  refine ⟨p, hp, hs, ?_, ?_, uploadOrder_not_lookup _ _ _ _⟩
  · rw [hc, hs]
  · intro c hc'
    unfold afterActivation at hc'
    split at hc'
    · exact InitializeProgram_isLookup VRB_MAX_LIGHTS programs m c hc'
    · simp at hc'

/-- Instance of C5: a fresh binder given a linked program. -/
theorem Enable_upload_order_witness :
    (Enable 2 (fun _ => sampleProgram) (SetProgram sampleState (some 1)) Matrix.Identity
        Matrix.Identity Matrix.Identity).result = true ∧
    ∃ p, (SetProgram sampleState (some 1)).program = some p ∧
      (Enable 2 (fun _ => sampleProgram) (SetProgram sampleState (some 1)) Matrix.Identity
        Matrix.Identity Matrix.Identity).calls =
        GLCall.programEnable p ::
          ((afterActivation 2 (fun _ => sampleProgram) (SetProgram sampleState (some 1))).2 ++
            uploadOrder (Enable 2 (fun _ => sampleProgram) (SetProgram sampleState (some 1))
              Matrix.Identity Matrix.Identity Matrix.Identity).state
              Matrix.Identity Matrix.Identity Matrix.Identity) :=
  ⟨rfl,
    (Enable_upload_order 2 (fun _ => sampleProgram) (SetProgram sampleState (some 1))
      Matrix.Identity Matrix.Identity Matrix.Identity rfl).imp
      (fun _ hq => ⟨hq.1, hq.2.2.1⟩)⟩

/-- C6. After `ResetLights` and `AddLight` of `N <= VRB_MAX_LIGHTS` lights, with
lights enabled, a successful `Enable` issues, right after activation and
resolution, exactly `N` sets of per-light uniforms: the k-th set carries the k-th
appended light and is addressed to the cached locations of slot `k`; the next
call writes the light count `N`; the direction write `glUniform3f` occurs exactly
`N` times in the whole call. -/
theorem Enable_appended_lights (VRB_MAX_LIGHTS : Nat) (programs : Programs) (m : State)
    (aId : Nat) (ls : List Light) (aPerspective aView aModel : Matrix)
    (hslots : m.uLights.length = VRB_MAX_LIGHTS) (hN : ls.length ≤ VRB_MAX_LIGHTS)
    (hen : m.lightsEnabled = true)
    (h : (Enable VRB_MAX_LIGHTS programs (AddLights (ResetLights m aId) ls)
      aPerspective aView aModel).result = true) :
    ∃ p slots,
      slots = (Enable VRB_MAX_LIGHTS programs (AddLights (ResetLights m aId) ls)
        aPerspective aView aModel).state.uLights.take ls.length ∧
      slots.length = ls.length ∧
      (Enable VRB_MAX_LIGHTS programs (AddLights (ResetLights m aId) ls)
        aPerspective aView aModel).calls =
        GLCall.programEnable p ::
          ((afterActivation VRB_MAX_LIGHTS programs (AddLights (ResetLights m aId) ls)).2 ++
            ((List.zip slots ls).flatMap (fun ul => slotUniforms ul.1 ul.2) ++
              GLCall.glUniform1i
                (some (Enable VRB_MAX_LIGHTS programs (AddLights (ResetLights m aId) ls)
                  aPerspective aView aModel).state.uLightCount) ls.length ::
              uploadAfterLights
                (Enable VRB_MAX_LIGHTS programs (AddLights (ResetLights m aId) ls)
                  aPerspective aView aModel).state aPerspective aView aModel)) ∧
      (Enable VRB_MAX_LIGHTS programs (AddLights (ResetLights m aId) ls)
        aPerspective aView aModel).calls.countP GLCall.isUniform3f = ls.length := by
  obtain ⟨p, hp, ha⟩ := Enable_result_true _ _ _ _ _ _ h
  obtain ⟨-, hs, hc⟩ := Enable_calls_eq VRB_MAX_LIGHTS programs _ p aPerspective aView aModel hp ha
  obtain ⟨hl1, hl2, hl3, -, -⟩ := AddLights_frame ls (ResetLights m aId)
  obtain ⟨hf1, hf2, hf3, -⟩ :=
    afterActivation_frame VRB_MAX_LIGHTS programs (AddLights (ResetLights m aId) ls)
  have hlights : (afterActivation VRB_MAX_LIGHTS programs
      (AddLights (ResetLights m aId) ls)).1.lights = ls := by
    rw [hf1, hl1]; simp [ResetLights]
  have hen2 : (afterActivation VRB_MAX_LIGHTS programs
      (AddLights (ResetLights m aId) ls)).1.lightsEnabled = true := by
    rw [hf2, hl2]; simpa [ResetLights] using hen
  have hlen : (afterActivation VRB_MAX_LIGHTS programs
      (AddLights (ResetLights m aId) ls)).1.uLights.length = VRB_MAX_LIGHTS := by
    rw [hf3, hl3]; simpa [ResetLights] using hslots
  have hact : activeLights (afterActivation VRB_MAX_LIGHTS programs
      (AddLights (ResetLights m aId) ls)).1 = ls := by
    simp [activeLights, hen2, hlights]
  have hzip := lightUniforms_in_range (afterActivation VRB_MAX_LIGHTS programs
      (AddLights (ResetLights m aId) ls)).1.uLights ls 0 (by omega)
  have hcalls : (Enable VRB_MAX_LIGHTS programs (AddLights (ResetLights m aId) ls)
        aPerspective aView aModel).calls =
        GLCall.programEnable p ::
          ((afterActivation VRB_MAX_LIGHTS programs (AddLights (ResetLights m aId) ls)).2 ++
            ((List.zip ((afterActivation VRB_MAX_LIGHTS programs
                (AddLights (ResetLights m aId) ls)).1.uLights.take ls.length) ls).flatMap
                (fun ul => slotUniforms ul.1 ul.2) ++
              GLCall.glUniform1i
                (some (afterActivation VRB_MAX_LIGHTS programs
                  (AddLights (ResetLights m aId) ls)).1.uLightCount) ls.length ::
              uploadAfterLights
                (afterActivation VRB_MAX_LIGHTS programs
                  (AddLights (ResetLights m aId) ls)).1 aPerspective aView aModel)) := by
    rw [hc]
    simp only [uploadOrder, hact, List.enum, hzip, List.drop_zero, List.append_assoc,
      List.singleton_append]
  refine ⟨p, _, rfl, ?_, ?_, ?_⟩
  · rw [hs, List.length_take, hlen]; omega
  · rw [hcalls, hs]
  · rw [hcalls]
    have hlook : ∀ c ∈ (afterActivation VRB_MAX_LIGHTS programs
        (AddLights (ResetLights m aId) ls)).2, GLCall.isUniform3f c = false := by
      intro c hc'
      have : c.isLookup = true := by
        unfold afterActivation at hc'
        split at hc'
        · exact InitializeProgram_isLookup _ _ _ c hc'
        · simp at hc'
      exact (isLookup_other c this).2.1
    have hafter : ∀ c ∈ uploadAfterLights (afterActivation VRB_MAX_LIGHTS programs
        (AddLights (ResetLights m aId) ls)).1 aPerspective aView aModel,
        GLCall.isUniform3f c = false :=
      fun c hc' => (uploadAfterLights_other _ _ _ _ c hc').2.1
    rw [List.countP_cons, List.countP_append, List.countP_append, List.countP_cons,
      countP_eq_zero_of_forall _ _ hlook, countP_eq_zero_of_forall _ _ hafter,
      (slotUniforms_other _ ls).2]
    simp [GLCall.isUniform3f, List.length_take, hlen]
    omega

/-- Instance of C6: two lights appended to a binder with two slots. -/
theorem Enable_appended_lights_witness :
    (SetProgram sampleState (some 1)).uLights.length = 2 ∧
    [sampleLight, sampleLight].length ≤ 2 ∧
    (SetProgram sampleState (some 1)).lightsEnabled = true ∧
    (Enable 2 (fun _ => sampleProgram)
      (AddLights (ResetLights (SetProgram sampleState (some 1)) 5) [sampleLight, sampleLight])
      Matrix.Identity Matrix.Identity Matrix.Identity).result = true ∧
    (Enable 2 (fun _ => sampleProgram)
      (AddLights (ResetLights (SetProgram sampleState (some 1)) 5) [sampleLight, sampleLight])
      Matrix.Identity Matrix.Identity Matrix.Identity).calls.countP GLCall.isUniform3f = 2 :=
  ⟨rfl, by decide, rfl, rfl,
    (Enable_appended_lights 2 (fun _ => sampleProgram) (SetProgram sampleState (some 1)) 5
      [sampleLight, sampleLight] Matrix.Identity Matrix.Identity Matrix.Identity
      rfl (by decide) rfl rfl).elim (fun _ hq => hq.elim (fun _ hr => hr.2.2.2))⟩

/-- C7, as stated, fails: with two light slots and three lights appended, a
successful `Enable` addresses the third light through a subscript outside the
location array and writes the light count 3 to the `u_lightCount` location. -/
theorem Enable_light_cap_counterexample :
    (AddLights (SetProgram sampleState (some 1))
      [sampleLight, sampleLight, sampleLight]).uLights.length = 2 ∧
    (Enable 2 (fun _ => sampleProgram)
      (AddLights (SetProgram sampleState (some 1)) [sampleLight, sampleLight, sampleLight])
      Matrix.Identity Matrix.Identity Matrix.Identity).result = true ∧
    GLCall.glUniform3f none 1 2 3 ∈
      (Enable 2 (fun _ => sampleProgram)
        (AddLights (SetProgram sampleState (some 1)) [sampleLight, sampleLight, sampleLight])
        Matrix.Identity Matrix.Identity Matrix.Identity).calls ∧
    (Enable 2 (fun _ => sampleProgram)
      (AddLights (SetProgram sampleState (some 1)) [sampleLight, sampleLight, sampleLight])
      Matrix.Identity Matrix.Identity Matrix.Identity).state.uLightCount = 12 ∧
    GLCall.glUniform1i (some 12) 3 ∈
      (Enable 2 (fun _ => sampleProgram)
        (AddLights (SetProgram sampleState (some 1)) [sampleLight, sampleLight, sampleLight])
        Matrix.Identity Matrix.Identity Matrix.Identity).calls := by
  refine ⟨rfl, rfl, ?_, ?_, ?_⟩
  · decide
  · decide
  · decide

/-- C7, amended. When the light collection holds at most `VRB_MAX_LIGHTS` lights
after the `AddLight` calls, a successful `Enable` addresses every per-light write
to a slot inside the location array (no call carries a location read outside it),
writes the light count, equal to the number of active lights, and every integer
uniform it writes, the light count among them, is at most `VRB_MAX_LIGHTS`. -/
theorem Enable_lights_within_slots (VRB_MAX_LIGHTS : Nat) (programs : Programs) (m : State)
    (ls : List Light) (aPerspective aView aModel : Matrix)
    (hslots : m.uLights.length = VRB_MAX_LIGHTS)
    (hN : (AddLights m ls).lights.length ≤ VRB_MAX_LIGHTS)
    (h : (Enable VRB_MAX_LIGHTS programs (AddLights m ls)
      aPerspective aView aModel).result = true) :
    (∀ c ∈ (Enable VRB_MAX_LIGHTS programs (AddLights m ls) aPerspective aView aModel).calls,
      c.outOfRange = false) ∧
    GLCall.glUniform1i
        (some (Enable VRB_MAX_LIGHTS programs (AddLights m ls)
          aPerspective aView aModel).state.uLightCount)
        (activeLights (Enable VRB_MAX_LIGHTS programs (AddLights m ls)
          aPerspective aView aModel).state).length ∈
      (Enable VRB_MAX_LIGHTS programs (AddLights m ls) aPerspective aView aModel).calls ∧
    (∀ loc v,
      GLCall.glUniform1i loc v ∈
        (Enable VRB_MAX_LIGHTS programs (AddLights m ls) aPerspective aView aModel).calls →
      v ≤ (VRB_MAX_LIGHTS : Int)) := by
  obtain ⟨p, hp, ha⟩ := Enable_result_true _ _ _ _ _ _ h
  obtain ⟨-, hs, hc⟩ := Enable_calls_eq VRB_MAX_LIGHTS programs _ p aPerspective aView aModel hp ha
  obtain ⟨-, -, hl3, -, -⟩ := AddLights_frame ls m
  obtain ⟨hf1, -, hf3, -⟩ := afterActivation_frame VRB_MAX_LIGHTS programs (AddLights m ls)
  have hact : (activeLights (afterActivation VRB_MAX_LIGHTS programs (AddLights m ls)).1).length
      ≤ VRB_MAX_LIGHTS := by
    unfold activeLights
    split
    · rw [hf1]; exact hN
    · simp
  have hlen : (afterActivation VRB_MAX_LIGHTS programs (AddLights m ls)).1.uLights.length =
      VRB_MAX_LIGHTS := by
    rw [hf3, hl3]; exact hslots
  have hzip := lightUniforms_in_range
    (afterActivation VRB_MAX_LIGHTS programs (AddLights m ls)).1.uLights
    (activeLights (afterActivation VRB_MAX_LIGHTS programs (AddLights m ls)).1) 0 (by omega)
  have hlook : ∀ c ∈ (afterActivation VRB_MAX_LIGHTS programs (AddLights m ls)).2,
      c.isLookup = true := by
    intro c hc'
    unfold afterActivation at hc'
    split at hc'
    · exact InitializeProgram_isLookup _ _ _ c hc'
    · simp at hc'
  rw [hs, hc]
  simp only [uploadOrder, List.enum, hzip]
  refine ⟨?_, by simp, ?_⟩
  · intro c hc'
    simp only [List.mem_cons, List.mem_append, List.mem_singleton, List.not_mem_nil,
      or_false] at hc'
    rcases hc' with rfl | hc' | (hc' | rfl) | hc'
    · rfl
    · exact (isLookup_other c (hlook c hc')).1
    · exact ((slotUniforms_other _ _).1 c hc').1
    · rfl
    · exact (uploadAfterLights_other _ _ _ _ c hc').1
  · intro loc v hc'
    simp only [List.mem_cons, List.mem_append, List.mem_singleton, List.not_mem_nil,
      or_false] at hc'
    rcases hc' with hc' | hc' | (hc' | hc') | hc'
    · exact absurd hc' (by simp)
    · exact absurd rfl ((isLookup_other _ (hlook _ hc')).2.2 loc v)
    · exact absurd rfl (((slotUniforms_other _ _).1 _ hc').2 loc v)
    · simp only [GLCall.glUniform1i.injEq] at hc'
      rw [hc'.2]
      exact_mod_cast hact
    · rw [(uploadAfterLights_other _ _ _ _ _ hc').2.2 loc v rfl]
      exact_mod_cast Nat.zero_le _

/-- Instance of amended C7: two lights on a binder with two slots. -/
theorem Enable_lights_within_slots_witness :
    (SetProgram sampleState (some 1)).uLights.length = 2 ∧
    (AddLights (SetProgram sampleState (some 1)) [sampleLight, sampleLight]).lights.length ≤ 2 ∧
    (Enable 2 (fun _ => sampleProgram)
      (AddLights (SetProgram sampleState (some 1)) [sampleLight, sampleLight])
      Matrix.Identity Matrix.Identity Matrix.Identity).result = true ∧
    ∀ c ∈ (Enable 2 (fun _ => sampleProgram)
      (AddLights (SetProgram sampleState (some 1)) [sampleLight, sampleLight])
      Matrix.Identity Matrix.Identity Matrix.Identity).calls, c.outOfRange = false :=
  ⟨rfl, by decide, rfl,
    (Enable_lights_within_slots 2 (fun _ => sampleProgram) (SetProgram sampleState (some 1))
      [sampleLight, sampleLight] Matrix.Identity Matrix.Identity Matrix.Identity
      rfl (by decide) rfl).1⟩

/-- C8 at `SetBonesCount(2)`: the loop issues two copies of 16 floats, to float
offsets 0 and 64; the second lies outside the 32-float buffer, so the buffer ends
up with one identity matrix followed by 16 indeterminate floats, and the following
successful `Enable` uploads, with count 2, that content instead of two identity
matrices. With one bone the buffer is the identity matrix. -/
theorem SetBonesCount_two_bones :
    SetBonesCount.stores 2 = [{ offset := 0, count := 16 }, { offset := 64, count := 16 }] ∧
    ¬ ({ offset := 64, count := 16 } : MemStore).inBounds (16 * 2) ∧
    (SetBonesCount sampleState 2).skeletonMatrices =
      some (identity16.map some ++ List.replicate 16 none) ∧
    (Enable 2 (fun _ => sampleProgram) (SetProgram (SetBonesCount sampleState 2) (some 1))
      Matrix.Identity Matrix.Identity Matrix.Identity).result = true ∧
    (Enable 2 (fun _ => sampleProgram) (SetProgram (SetBonesCount sampleState 2) (some 1))
      Matrix.Identity Matrix.Identity Matrix.Identity).calls.getLast? =
      some (GLCall.glUniformMatrix4fv (some 13) 2 false
        (identity16.map some ++ List.replicate 16 none)) ∧
    (SetBonesCount sampleState 1).skeletonMatrices = some (identity16.map some) := by
  refine ⟨by decide, by decide, by decide, rfl, by decide, by decide⟩

/-- C9, as stated, fails on a binder that was Bound before it got its skeleton:
after `SetBonesCount(1)` and `SetSkeletonMatrices(sampleMatrix16)` the buffer holds
the sixteen floats, the program answers 13 for `u_jointMatrix`, and `Enable`
succeeds without resolving; the cached `uBoneMats` is still -1 and no call uploads
those floats. -/
theorem Enable_bound_skips_bones :
    plainBound.updateProgram = false ∧
    (SetSkeletonMatrices (SetBonesCount plainBound 1) sampleMatrix16).skeletonMatrices =
      some (sampleMatrix16.map some) ∧
    (SetSkeletonMatrices (SetBonesCount plainBound 1) sampleMatrix16).program = some 1 ∧
    (samplePrograms 1).GetUniformLocation "u_jointMatrix" = 13 ∧
    skinnedWhileBound.result = true ∧
    resolves skinnedWhileBound.calls = false ∧
    skinnedWhileBound.state.uBoneMats = -1 ∧
    skinnedWhileBound.calls.any (uploadsCells (sampleMatrix16.map some)) = false := by
  refine ⟨rfl, by decide, rfl, by decide, rfl, by decide, by decide, by decide⟩

/-- C9, amended. Take a bone count `n >= 1` whose `SetBonesCount` initialisation
stays inside its buffer (that is `n = 1`) and a source of at least `16 * n` floats.
After `SetBonesCount(n)` and `SetSkeletonMatrices(buf)`, both memory safe, the
owned buffer is exactly the first `16 * n` floats of `buf` and the bone count is
`n`. If the binder is Dirty and its program activates, is linked and answers a
location `>= 0` for `u_jointMatrix`, the next `Enable` succeeds, caches that
location and ends with the upload of exactly those floats, count `n`, to it. An
`Enable` that succeeds with the cached location resolved ends with the same
upload to the cached location; one that succeeds with the cached location
unresolved ends its upload before the bone-matrix array. -/
theorem SetSkeletonMatrices_upload (m : State) (n : Nat) (buf : List GLfloat)
    (hn : 1 ≤ n) (hsafe : SetBonesCount.memorySafe n = true) (hbuf : 16 * n ≤ buf.length) :
    n = 1 ∧
    SetSkeletonMatrices.memorySafe (SetBonesCount m n) = true ∧
    (SetSkeletonMatrices (SetBonesCount m n) buf).skeletonMatrices =
      some ((buf.take (16 * n)).map some) ∧
    (SetSkeletonMatrices (SetBonesCount m n) buf).bonesCount = n ∧
    (∀ (VRB_MAX_LIGHTS : Nat) (programs : Programs) (aPerspective aView aModel : Matrix)
      (p : ProgramAddr),
      (SetSkeletonMatrices (SetBonesCount m n) buf).program = some p →
      (SetSkeletonMatrices (SetBonesCount m n) buf).updateProgram = true →
      (programs p).Enable = true →
      (programs p).GetProgram ≠ 0 →
      0 ≤ (programs p).GetUniformLocation "u_jointMatrix" →
      (Enable VRB_MAX_LIGHTS programs (SetSkeletonMatrices (SetBonesCount m n) buf)
        aPerspective aView aModel).result = true ∧
      (Enable VRB_MAX_LIGHTS programs (SetSkeletonMatrices (SetBonesCount m n) buf)
        aPerspective aView aModel).state.uBoneMats =
        (programs p).GetUniformLocation "u_jointMatrix" ∧
      (Enable VRB_MAX_LIGHTS programs (SetSkeletonMatrices (SetBonesCount m n) buf)
        aPerspective aView aModel).calls.getLast? =
        some (GLCall.glUniformMatrix4fv
          (some ((programs p).GetUniformLocation "u_jointMatrix"))
          n false ((buf.take (16 * n)).map some))) ∧
    (∀ (VRB_MAX_LIGHTS : Nat) (programs : Programs) (aPerspective aView aModel : Matrix),
      (Enable VRB_MAX_LIGHTS programs (SetSkeletonMatrices (SetBonesCount m n) buf)
        aPerspective aView aModel).result = true →
      0 ≤ (Enable VRB_MAX_LIGHTS programs (SetSkeletonMatrices (SetBonesCount m n) buf)
        aPerspective aView aModel).state.uBoneMats →
      (Enable VRB_MAX_LIGHTS programs (SetSkeletonMatrices (SetBonesCount m n) buf)
        aPerspective aView aModel).calls.getLast? =
        some (GLCall.glUniformMatrix4fv
          (some (Enable VRB_MAX_LIGHTS programs (SetSkeletonMatrices (SetBonesCount m n) buf)
            aPerspective aView aModel).state.uBoneMats)
          n false ((buf.take (16 * n)).map some))) ∧
    (∀ (VRB_MAX_LIGHTS : Nat) (programs : Programs) (aPerspective aView aModel : Matrix),
      (Enable VRB_MAX_LIGHTS programs (SetSkeletonMatrices (SetBonesCount m n) buf)
        aPerspective aView aModel).result = true →
      (Enable VRB_MAX_LIGHTS programs (SetSkeletonMatrices (SetBonesCount m n) buf)
        aPerspective aView aModel).state.uBoneMats < 0 →
      ∃ p,
        (Enable VRB_MAX_LIGHTS programs (SetSkeletonMatrices (SetBonesCount m n) buf)
          aPerspective aView aModel).calls =
          GLCall.programEnable p ::
            ((afterActivation VRB_MAX_LIGHTS programs
                (SetSkeletonMatrices (SetBonesCount m n) buf)).2 ++
              ((activeLights (Enable VRB_MAX_LIGHTS programs
                  (SetSkeletonMatrices (SetBonesCount m n) buf)
                  aPerspective aView aModel).state).enum.flatMap
                (fun kl => lightUniforms
                  (Enable VRB_MAX_LIGHTS programs (SetSkeletonMatrices (SetBonesCount m n) buf)
                    aPerspective aView aModel).state.uLights kl.1 kl.2) ++
                [GLCall.glUniform1i
                  (some (Enable VRB_MAX_LIGHTS programs
                    (SetSkeletonMatrices (SetBonesCount m n) buf)
                    aPerspective aView aModel).state.uLightCount)
                  (activeLights (Enable VRB_MAX_LIGHTS programs
                    (SetSkeletonMatrices (SetBonesCount m n) buf)
                    aPerspective aView aModel).state).length] ++
                uploadBeforeBones
                  (Enable VRB_MAX_LIGHTS programs (SetSkeletonMatrices (SetBonesCount m n) buf)
                    aPerspective aView aModel).state aPerspective aView aModel))) := by
  obtain ⟨b0, hb0, hlen0, hcount0⟩ := SetBonesCount_buffer m n
  have hn1 : n = 1 := by
    have := (SetBonesCount_memorySafe_iff n).1 hsafe
    omega
  have hstore : SetSkeletonMatrices.store (SetBonesCount m n) = { offset := 0, count := 16 * n } := by
    simp [SetSkeletonMatrices.store, hcount0, sizeofFloat]
  have hsafe2 : SetSkeletonMatrices.memorySafe (SetBonesCount m n) = true := by
    simp [SetSkeletonMatrices.memorySafe, hb0, hstore, MemStore.inBounds, hlen0]
  have hbufeq : (SetSkeletonMatrices (SetBonesCount m n) buf).skeletonMatrices =
      some ((buf.take (16 * n)).map some) := by
    simp only [SetSkeletonMatrices, hb0, hstore]
    rw [memcpyFloats_whole b0 buf (16 * n) hlen0 hbuf]
  have hcount : (SetSkeletonMatrices (SetBonesCount m n) buf).bonesCount = n := by
    rw [(SetSkeletonMatrices_length _ _).2, hcount0]
  have hupload : ∀ (VRB_MAX_LIGHTS : Nat) (programs : Programs)
      (aPerspective aView aModel : Matrix),
      (Enable VRB_MAX_LIGHTS programs (SetSkeletonMatrices (SetBonesCount m n) buf)
        aPerspective aView aModel).result = true →
      0 ≤ (Enable VRB_MAX_LIGHTS programs (SetSkeletonMatrices (SetBonesCount m n) buf)
        aPerspective aView aModel).state.uBoneMats →
      (Enable VRB_MAX_LIGHTS programs (SetSkeletonMatrices (SetBonesCount m n) buf)
        aPerspective aView aModel).calls.getLast? =
        some (GLCall.glUniformMatrix4fv
          (some (Enable VRB_MAX_LIGHTS programs (SetSkeletonMatrices (SetBonesCount m n) buf)
            aPerspective aView aModel).state.uBoneMats)
          n false ((buf.take (16 * n)).map some)) := by
    intro VRB_MAX_LIGHTS programs aPerspective aView aModel hres hloc
    obtain ⟨p, hp, ha⟩ := Enable_result_true _ _ _ _ _ _ hres
    obtain ⟨-, hs, hc⟩ :=
      Enable_calls_eq VRB_MAX_LIGHTS programs _ p aPerspective aView aModel hp ha
    obtain ⟨-, -, -, hf4, hf5, -⟩ := afterActivation_frame VRB_MAX_LIGHTS programs
      (SetSkeletonMatrices (SetBonesCount m n) buf)
    rw [hs] at hloc ⊢
    rw [hc, ← List.cons_append]
    have hpos : 0 < (afterActivation VRB_MAX_LIGHTS programs
        (SetSkeletonMatrices (SetBonesCount m n) buf)).1.bonesCount := by
      rw [hf5, hcount]; exact hn
    rw [uploadOrder_getLast _ aPerspective aView aModel _ (hf4.trans hbufeq) hpos hloc,
      hf5, hcount, readCells_whole _ _ (by simp [hbuf])]
  refine ⟨hn1, hsafe2, hbufeq, hcount, ?_, hupload, ?_⟩
  · intro VRB_MAX_LIGHTS programs aPerspective aView aModel p hp hd ha hz hj
    obtain ⟨hr, hs, -⟩ :=
      Enable_calls_eq VRB_MAX_LIGHTS programs _ p aPerspective aView aModel hp ha
    have hpos : 0 < n := hn
    have hloc : (Enable VRB_MAX_LIGHTS programs (SetSkeletonMatrices (SetBonesCount m n) buf)
        aPerspective aView aModel).state.uBoneMats =
        (programs p).GetUniformLocation "u_jointMatrix" := by
      rw [hs]
      simp [afterActivation, hd, State.InitializeProgram, hp, hz, hbufeq, hcount, hpos]
    refine ⟨hr, hloc, ?_⟩
    have := hupload VRB_MAX_LIGHTS programs aPerspective aView aModel hr (by rw [hloc]; exact hj)
    rw [this, hloc]
  · intro VRB_MAX_LIGHTS programs aPerspective aView aModel hres hneg
    obtain ⟨p, hp, ha⟩ := Enable_result_true _ _ _ _ _ _ hres
    obtain ⟨-, hs, hc⟩ :=
      Enable_calls_eq VRB_MAX_LIGHTS programs _ p aPerspective aView aModel hp ha
    refine ⟨p, ?_⟩
    rw [hs] at hneg ⊢
    rw [hc]
    simp only [uploadOrder, uploadAfterLights_unresolved _ _ _ _ hneg]

/-- Instance of amended C9: one bone, sixteen floats, a Dirty binder on a linked
program that answers 13 for `u_jointMatrix`. -/
theorem SetSkeletonMatrices_upload_witness :
    1 ≤ 1 ∧ SetBonesCount.memorySafe 1 = true ∧ 16 * 1 ≤ sampleMatrix16.length ∧
    (SetSkeletonMatrices (SetBonesCount (SetProgram sampleState (some 1)) 1)
      sampleMatrix16).program = some 1 ∧
    (SetSkeletonMatrices (SetBonesCount (SetProgram sampleState (some 1)) 1)
      sampleMatrix16).updateProgram = true ∧
    (samplePrograms 1).Enable = true ∧
    (samplePrograms 1).GetProgram ≠ 0 ∧
    0 ≤ (samplePrograms 1).GetUniformLocation "u_jointMatrix" ∧
    (Enable 2 samplePrograms
      (SetSkeletonMatrices (SetBonesCount (SetProgram sampleState (some 1)) 1) sampleMatrix16)
      Matrix.Identity Matrix.Identity Matrix.Identity).calls.getLast? =
      some (GLCall.glUniformMatrix4fv
        (some ((samplePrograms 1).GetUniformLocation "u_jointMatrix"))
        1 false ((sampleMatrix16.take (16 * 1)).map some)) :=
  ⟨by decide, by decide, by decide, rfl, rfl, rfl, by decide, by decide,
    ((SetSkeletonMatrices_upload (SetProgram sampleState (some 1)) 1 sampleMatrix16
      (by decide) (by decide) (by decide)).2.2.2.2.1 2 samplePrograms
      Matrix.Identity Matrix.Identity Matrix.Identity 1 rfl rfl rfl (by decide)
      (by decide)).2.2⟩

/-- C10 at `ShutdownGL`: after `SetBonesCount(1)` the buffer holds 16 floats for one
bone; `ShutdownGL` releases the buffer and leaves the bone count at 1, so the
invariant no longer holds, and a `SetSkeletonMatrices` in that state copies 16
floats with no buffer to receive them. -/
theorem ShutdownGL_breaks_sizing :
    SkeletonSized (State.init 2 ⟨0, 0, 0, 1⟩) ∧
    SkeletonSized (SetBonesCount sampleState 1) ∧
    ¬ SkeletonSized (ShutdownGL (SetBonesCount sampleState 1)) ∧
    (ShutdownGL (SetBonesCount sampleState 1)).skeletonMatrices = none ∧
    (ShutdownGL (SetBonesCount sampleState 1)).bonesCount = 1 ∧
    SetSkeletonMatrices.store (ShutdownGL (SetBonesCount sampleState 1)) =
      { offset := 0, count := 16 } ∧
    SetSkeletonMatrices.memorySafe (ShutdownGL (SetBonesCount sampleState 1)) = false ∧
    stepChecked 2 (ShutdownGL (SetBonesCount sampleState 1))
      (Op.SetSkeletonMatrices sampleMatrix16) = none := by
  refine ⟨by decide, by decide, by decide, rfl, rfl, by decide, by decide, ?_⟩
  simp only [stepChecked, Op.memorySafe]
  have : SetSkeletonMatrices.memorySafe (ShutdownGL (SetBonesCount sampleState 1)) = false := by
    decide
  simp [this]

/-- C11. With `lightsEnabled` false, whatever the light collection holds, a
successful `Enable` writes no per-light uniform: after the activation and the
lookups its next call writes the light count, with value 0, and the rest of the
upload follows; `glUniform3f`, the light-direction write, does not occur. -/
theorem Enable_lights_disabled (VRB_MAX_LIGHTS : Nat) (programs : Programs) (m : State)
    (aPerspective aView aModel : Matrix)
    (hoff : m.lightsEnabled = false)
    (h : (Enable VRB_MAX_LIGHTS programs m aPerspective aView aModel).result = true) :
    ∃ p, m.program = some p ∧
      (Enable VRB_MAX_LIGHTS programs m aPerspective aView aModel).calls =
        GLCall.programEnable p :: ((afterActivation VRB_MAX_LIGHTS programs m).2 ++
          GLCall.glUniform1i
              (some (Enable VRB_MAX_LIGHTS programs m aPerspective aView aModel).state.uLightCount)
              0 ::
            uploadAfterLights (Enable VRB_MAX_LIGHTS programs m aPerspective aView aModel).state
              aPerspective aView aModel) ∧
      (Enable VRB_MAX_LIGHTS programs m aPerspective aView aModel).calls.countP
        GLCall.isUniform3f = 0 := by
  apply Enable_calls_no_lights VRB_MAX_LIGHTS programs m aPerspective aView aModel _ h
  have := (afterActivation_frame VRB_MAX_LIGHTS programs m).2.1
  simp [activeLights, this, hoff]

/-- Instance of C11: two lights present, lights switched off through
`SetLightsEnabled`. -/
theorem Enable_lights_disabled_witness :
    (SetLightsEnabled (AddLights (SetProgram sampleState (some 1)) [sampleLight, sampleLight])
      false).lightsEnabled = false ∧
    (Enable 2 (fun _ => sampleProgram)
      (SetLightsEnabled (AddLights (SetProgram sampleState (some 1)) [sampleLight, sampleLight])
        false) Matrix.Identity Matrix.Identity Matrix.Identity).result = true ∧
    (Enable 2 (fun _ => sampleProgram)
      (SetLightsEnabled (AddLights (SetProgram sampleState (some 1)) [sampleLight, sampleLight])
        false) Matrix.Identity Matrix.Identity Matrix.Identity).calls.countP
        GLCall.isUniform3f = 0 :=
  ⟨rfl, rfl,
    (Enable_lights_disabled 2 (fun _ => sampleProgram)
      (SetLightsEnabled (AddLights (SetProgram sampleState (some 1)) [sampleLight, sampleLight])
        false) Matrix.Identity Matrix.Identity Matrix.Identity rfl rfl).elim
      (fun _ hq => hq.2.2)⟩

/-- C12. After `ResetLights(id)`, whatever lights were there before, and after any
further calls that are neither `AddLight` nor `ResetLights`, the light collection
is empty and `GetLightId` returns `id`; a successful `Enable` then writes no
per-light uniform: after the activation and the lookups its next call writes the
light count 0. -/
theorem ResetLights_then_Enable (VRB_MAX_LIGHTS : Nat) (m : State) (aId : Nat) (ops : List Op)
    (programs : Programs) (aPerspective aView aModel : Matrix)
    (hops : ∀ op ∈ ops, op.isAddLight = false ∧ op.isResetLights = false) :
    (ResetLights m aId).lights = [] ∧
    GetLightId (ResetLights m aId) = aId ∧
    (run VRB_MAX_LIGHTS (ResetLights m aId) ops).1.lights = [] ∧
    GetLightId (run VRB_MAX_LIGHTS (ResetLights m aId) ops).1 = aId ∧
    ((Enable VRB_MAX_LIGHTS programs (run VRB_MAX_LIGHTS (ResetLights m aId) ops).1
        aPerspective aView aModel).result = true →
      ∃ p, (run VRB_MAX_LIGHTS (ResetLights m aId) ops).1.program = some p ∧
        (Enable VRB_MAX_LIGHTS programs (run VRB_MAX_LIGHTS (ResetLights m aId) ops).1
          aPerspective aView aModel).calls =
          GLCall.programEnable p ::
            ((afterActivation VRB_MAX_LIGHTS programs
                (run VRB_MAX_LIGHTS (ResetLights m aId) ops).1).2 ++
              GLCall.glUniform1i
                  (some (Enable VRB_MAX_LIGHTS programs
                    (run VRB_MAX_LIGHTS (ResetLights m aId) ops).1
                    aPerspective aView aModel).state.uLightCount) 0 ::
                uploadAfterLights
                  (Enable VRB_MAX_LIGHTS programs (run VRB_MAX_LIGHTS (ResetLights m aId) ops).1
                    aPerspective aView aModel).state aPerspective aView aModel) ∧
        (Enable VRB_MAX_LIGHTS programs (run VRB_MAX_LIGHTS (ResetLights m aId) ops).1
          aPerspective aView aModel).calls.countP GLCall.isUniform3f = 0) := by
  obtain ⟨hl, hi⟩ := run_lights VRB_MAX_LIGHTS ops (ResetLights m aId) hops
  have hl0 : (run VRB_MAX_LIGHTS (ResetLights m aId) ops).1.lights = [] := by
    rw [hl]; rfl
  refine ⟨rfl, rfl, hl0, ?_, ?_⟩
  · unfold GetLightId; rw [hi]; rfl
  · intro h
    apply Enable_calls_no_lights VRB_MAX_LIGHTS programs _ aPerspective aView aModel _ h
    have := (afterActivation_frame VRB_MAX_LIGHTS programs
      (run VRB_MAX_LIGHTS (ResetLights m aId) ops).1).1
    simp [activeLights, this, hl0]

/-- Instance of C12: two lights appended, then `ResetLights(7)`, then `SetProgram`. -/
theorem ResetLights_then_Enable_witness :
    (∀ op ∈ [Op.SetProgram (some 1)], op.isAddLight = false ∧ op.isResetLights = false) ∧
    (run 2 (ResetLights (AddLights sampleState [sampleLight, sampleLight]) 7)
      [Op.SetProgram (some 1)]).1.lights = [] ∧
    GetLightId (run 2 (ResetLights (AddLights sampleState [sampleLight, sampleLight]) 7)
      [Op.SetProgram (some 1)]).1 = 7 ∧
    (Enable 2 (fun _ => sampleProgram)
      (run 2 (ResetLights (AddLights sampleState [sampleLight, sampleLight]) 7)
        [Op.SetProgram (some 1)]).1 Matrix.Identity Matrix.Identity
      Matrix.Identity).result = true ∧
    (Enable 2 (fun _ => sampleProgram)
      (run 2 (ResetLights (AddLights sampleState [sampleLight, sampleLight]) 7)
        [Op.SetProgram (some 1)]).1 Matrix.Identity Matrix.Identity
      Matrix.Identity).calls.countP GLCall.isUniform3f = 0 :=
  ⟨by decide,
    (ResetLights_then_Enable 2 (AddLights sampleState [sampleLight, sampleLight]) 7
      [Op.SetProgram (some 1)] (fun _ => sampleProgram) Matrix.Identity Matrix.Identity
      Matrix.Identity (by decide)).2.2.1,
    (ResetLights_then_Enable 2 (AddLights sampleState [sampleLight, sampleLight]) 7
      [Op.SetProgram (some 1)] (fun _ => sampleProgram) Matrix.Identity Matrix.Identity
      Matrix.Identity (by decide)).2.2.2.1,
    rfl,
    ((ResetLights_then_Enable 2 (AddLights sampleState [sampleLight, sampleLight]) 7
      [Op.SetProgram (some 1)] (fun _ => sampleProgram) Matrix.Identity Matrix.Identity
      Matrix.Identity (by decide)).2.2.2.2 rfl).elim (fun _ hq => hq.2.2)⟩

/-- C13. Round trip: `GetMaterial` after `SetMaterial(a, d, s, e)` yields exactly
`(a, d, s, e)`; `SetMaterial` leaves every other field of the binder state as it
was (program, dirty flag, every cached location, lights, texture, tint, skeleton,
and the rest), so that setting the old material back restores the old state. -/
theorem SetMaterial_GetMaterial (m : State) (a d s : Color) (e : GLfloat) :
    GetMaterial (SetMaterial m a d s e) = (a, d, s, e) ∧
    SetMaterial (SetMaterial m a d s e) m.ambient m.diffuse m.specular m.specularExponent = m ∧
    (SetMaterial m a d s e).program = m.program ∧
    (SetMaterial m a d s e).updateProgram = m.updateProgram ∧
    (SetMaterial m a d s e).lights = m.lights ∧
    (SetMaterial m a d s e).lightId = m.lightId ∧
    (SetMaterial m a d s e).lightsEnabled = m.lightsEnabled ∧
    (SetMaterial m a d s e).texture = m.texture ∧
    (SetMaterial m a d s e).tintColor = m.tintColor ∧
    (SetMaterial m a d s e).uvTransformEnabled = m.uvTransformEnabled ∧
    (SetMaterial m a d s e).uvTransform = m.uvTransform ∧
    (SetMaterial m a d s e).customFragmentShader = m.customFragmentShader ∧
    (SetMaterial m a d s e).bonesCount = m.bonesCount ∧
    (SetMaterial m a d s e).skeletonMatrices = m.skeletonMatrices ∧
    (SetMaterial m a d s e).uPerspective = m.uPerspective ∧
    (SetMaterial m a d s e).uView = m.uView ∧
    (SetMaterial m a d s e).uModel = m.uModel ∧
    (SetMaterial m a d s e).uUVTransform = m.uUVTransform ∧
    (SetMaterial m a d s e).uLightCount = m.uLightCount ∧
    (SetMaterial m a d s e).uBoneMats = m.uBoneMats ∧
    (SetMaterial m a d s e).uLights = m.uLights ∧
    (SetMaterial m a d s e).uMatterialAmbient = m.uMatterialAmbient ∧
    (SetMaterial m a d s e).uMatterialDiffuse = m.uMatterialDiffuse ∧
    (SetMaterial m a d s e).uMatterialSpecular = m.uMatterialSpecular ∧
    (SetMaterial m a d s e).uMatterialSpecularExponent = m.uMatterialSpecularExponent ∧
    (SetMaterial m a d s e).uTexture0 = m.uTexture0 ∧
    (SetMaterial m a d s e).uTintColor = m.uTintColor ∧
    (SetMaterial m a d s e).aPosition = m.aPosition ∧
    (SetMaterial m a d s e).aNormal = m.aNormal ∧
    (SetMaterial m a d s e).aUV = m.aUV ∧
    (SetMaterial m a d s e).aColor = m.aColor ∧
    (SetMaterial m a d s e).aBoneId = m.aBoneId ∧
    (SetMaterial m a d s e).aBoneWeight = m.aBoneWeight := by
  refine ⟨rfl, ?_, ?_⟩
  · cases m; rfl
  · simp [SetMaterial]

/-- C14. `UVLength` is 0 with no texture, 2 when the texture's target is
`GL_TEXTURE_2D`, 3 when it is `GL_TEXTURE_CUBE_MAP`; the result is always one of
0, 2, 3 and is 0 exactly when `HasTexture` is false. -/
theorem UVLength_values (m : State) :
    (m.texture = none → UVLength m = 0) ∧
    (∀ t, m.texture = some t → t.GetTarget = GL_TEXTURE_2D → UVLength m = 2) ∧
    (∀ t, m.texture = some t → t.GetTarget = GL_TEXTURE_CUBE_MAP → UVLength m = 3) ∧
    (UVLength m = 0 ∨ UVLength m = 2 ∨ UVLength m = 3) ∧
    (UVLength m = 0 ↔ HasTexture m = false) := by
  refine ⟨?_, ?_, ?_, ?_, ?_⟩
  · intro h
    simp [UVLength, h]
  · intro t h ht
    simp [UVLength, h, ht, GL_TEXTURE_2D, GL_TEXTURE_CUBE_MAP]
  · intro t h ht
    simp [UVLength, h, ht]
  · unfold UVLength
    split
    · simp
    · split <;> simp
  · unfold UVLength HasTexture
    split
    · rename_i h; simp [h]
    · rename_i t h
      split <;> simp [h]

/-- Instance of C14 on a binder holding a 2D texture. -/
theorem UVLength_values_witness :
    (SetTexture sampleState (some sampleTexture)).texture = some sampleTexture ∧
    sampleTexture.GetTarget = GL_TEXTURE_2D ∧
    UVLength (SetTexture sampleState (some sampleTexture)) = 2 :=
  ⟨rfl, rfl,
    (UVLength_values (SetTexture sampleState (some sampleTexture))).2.1 sampleTexture rfl rfl⟩

/-- C15. `Disable` leaves the binder state as it was (program and dirty flag
included); with no texture it makes no call; with a texture `t` it selects texture
unit 0 and calls `t.Unbind()`; so an `Unbind` is issued exactly when a texture is
set. -/
theorem Disable_unbinds_iff_texture (m : State) :
    (Disable m).1 = m ∧
    (m.texture = none → (Disable m).2 = []) ∧
    (∀ t, m.texture = some t →
      (Disable m).2 = [GLCall.glActiveTexture GL_TEXTURE0, GLCall.textureUnbind t]) ∧
    ((∃ t, GLCall.textureUnbind t ∈ (Disable m).2) ↔ HasTexture m = true) := by
  unfold Disable HasTexture
  cases h : m.texture with
  | none => simp
  | some t => simp

/-- Instance of C15 on a binder holding a texture. -/
theorem Disable_unbinds_iff_texture_witness :
    (SetTexture sampleState (some sampleTexture)).texture = some sampleTexture ∧
    (Disable (SetTexture sampleState (some sampleTexture))).2 =
      [GLCall.glActiveTexture GL_TEXTURE0, GLCall.textureUnbind sampleTexture] :=
  ⟨rfl,
    (Disable_unbinds_iff_texture (SetTexture sampleState (some sampleTexture))).2.2.1
      sampleTexture rfl⟩

/-- C16. `ShutdownGL` sets the dirty flag and releases the skeleton buffer, from
any binder state and so from every Bound one. The next `Enable` whose program
activates and has a non-zero handle succeeds and re-resolves: between the
activation and the upload it issues the lookups of `InitializeProgram`, it leaves
the binder Bound, and the cached locations of every unconditional uniform and
attribute, and of every light slot, are the program's answers of that call.
After `ShutdownGL`, in every memory-safe run of calls without `SetBonesCount` the
binder holds no skeleton buffer and a successful `Enable` ends its upload before
the bone-matrix array; a `SetSkeletonMatrices` while the bone count is still
positive is not memory safe. -/
theorem ShutdownGL_then_Enable (VRB_MAX_LIGHTS : Nat) (m : State) :
    (ShutdownGL m).updateProgram = true ∧
    (ShutdownGL m).skeletonMatrices = none ∧
    (∀ (programs : Programs) (aPerspective aView aModel : Matrix) (p : ProgramAddr),
      (ShutdownGL m).program = some p →
      (programs p).Enable = true →
      (programs p).GetProgram ≠ 0 →
      (Enable VRB_MAX_LIGHTS programs (ShutdownGL m) aPerspective aView aModel).result = true ∧
      resolves (Enable VRB_MAX_LIGHTS programs (ShutdownGL m)
        aPerspective aView aModel).calls = true ∧
      (Enable VRB_MAX_LIGHTS programs (ShutdownGL m) aPerspective aView aModel).calls =
        GLCall.programEnable p ::
          (((ShutdownGL m).InitializeProgram VRB_MAX_LIGHTS programs).2 ++
            uploadOrder
              (Enable VRB_MAX_LIGHTS programs (ShutdownGL m) aPerspective aView aModel).state
              aPerspective aView aModel) ∧
      GLCall.getUniformLocation p "u_perspective" ∈
        ((ShutdownGL m).InitializeProgram VRB_MAX_LIGHTS programs).2 ∧
      (Enable VRB_MAX_LIGHTS programs (ShutdownGL m)
        aPerspective aView aModel).state.updateProgram = false ∧
      (Enable VRB_MAX_LIGHTS programs (ShutdownGL m) aPerspective aView aModel).state =
        ((ShutdownGL m).InitializeProgram VRB_MAX_LIGHTS programs).1 ∧
      (Enable VRB_MAX_LIGHTS programs (ShutdownGL m)
        aPerspective aView aModel).state.uPerspective =
        (programs p).GetUniformLocation "u_perspective" ∧
      (Enable VRB_MAX_LIGHTS programs (ShutdownGL m) aPerspective aView aModel).state.uView =
        (programs p).GetUniformLocation "u_view" ∧
      (Enable VRB_MAX_LIGHTS programs (ShutdownGL m) aPerspective aView aModel).state.uModel =
        (programs p).GetUniformLocation "u_model" ∧
      (Enable VRB_MAX_LIGHTS programs (ShutdownGL m)
        aPerspective aView aModel).state.uLightCount =
        (programs p).GetUniformLocation "u_lightCount" ∧
      (Enable VRB_MAX_LIGHTS programs (ShutdownGL m)
        aPerspective aView aModel).state.uMatterialAmbient =
        (programs p).GetUniformLocation "u_material.ambient" ∧
      (Enable VRB_MAX_LIGHTS programs (ShutdownGL m)
        aPerspective aView aModel).state.uMatterialDiffuse =
        (programs p).GetUniformLocation "u_material.diffuse" ∧
      (Enable VRB_MAX_LIGHTS programs (ShutdownGL m)
        aPerspective aView aModel).state.uMatterialSpecular =
        (programs p).GetUniformLocation "u_material.specular" ∧
      (Enable VRB_MAX_LIGHTS programs (ShutdownGL m)
        aPerspective aView aModel).state.uMatterialSpecularExponent =
        (programs p).GetUniformLocation "u_material.specularExponent" ∧
      (Enable VRB_MAX_LIGHTS programs (ShutdownGL m)
        aPerspective aView aModel).state.uTintColor =
        (programs p).GetUniformLocation "u_tintColor" ∧
      (Enable VRB_MAX_LIGHTS programs (ShutdownGL m)
        aPerspective aView aModel).state.aPosition =
        (programs p).GetAttributeLocation "a_position" ∧
      (Enable VRB_MAX_LIGHTS programs (ShutdownGL m)
        aPerspective aView aModel).state.aNormal =
        (programs p).GetAttributeLocation "a_normal" ∧
      (m.uLights.length = VRB_MAX_LIGHTS →
        (Enable VRB_MAX_LIGHTS programs (ShutdownGL m)
          aPerspective aView aModel).state.uLights =
          (List.range VRB_MAX_LIGHTS).map (slotLocations (programs p)))) ∧
    (∀ (ops : List Op) (r : State × List (List GLCall)) (programs : Programs)
      (aPerspective aView aModel : Matrix),
      (∀ op ∈ ops, op.isSetBonesCount = false) →
      runChecked VRB_MAX_LIGHTS (ShutdownGL m) ops = some r →
      r.1.skeletonMatrices = none ∧
      ((Enable VRB_MAX_LIGHTS programs r.1 aPerspective aView aModel).result = true →
        ∃ p,
          (Enable VRB_MAX_LIGHTS programs r.1 aPerspective aView aModel).calls =
            GLCall.programEnable p ::
              ((afterActivation VRB_MAX_LIGHTS programs r.1).2 ++
                ((activeLights (Enable VRB_MAX_LIGHTS programs r.1
                    aPerspective aView aModel).state).enum.flatMap
                  (fun kl => lightUniforms
                    (Enable VRB_MAX_LIGHTS programs r.1
                      aPerspective aView aModel).state.uLights kl.1 kl.2) ++
                  [GLCall.glUniform1i
                    (some (Enable VRB_MAX_LIGHTS programs r.1
                      aPerspective aView aModel).state.uLightCount)
                    (activeLights (Enable VRB_MAX_LIGHTS programs r.1
                      aPerspective aView aModel).state).length] ++
                  uploadBeforeBones
                    (Enable VRB_MAX_LIGHTS programs r.1
                      aPerspective aView aModel).state aPerspective aView aModel)))) ∧
    (∀ (matrices : List GLfloat), 0 < m.bonesCount →
      stepChecked VRB_MAX_LIGHTS (ShutdownGL m) (Op.SetSkeletonMatrices matrices) = none) := by
  refine ⟨rfl, rfl, ?_, ?_, ?_⟩
  · intro programs aPerspective aView aModel p hp ha hz
    obtain ⟨hr, hs, hc⟩ :=
      Enable_calls_eq VRB_MAX_LIGHTS programs (ShutdownGL m) p aPerspective aView aModel hp ha
    have hA : afterActivation VRB_MAX_LIGHTS programs (ShutdownGL m) =
        (ShutdownGL m).InitializeProgram VRB_MAX_LIGHTS programs := by
      simp [afterActivation, ShutdownGL]
    obtain ⟨hmem, hclean⟩ :=
      InitializeProgram_linked VRB_MAX_LIGHTS programs (ShutdownGL m) p hp hz
    obtain ⟨h1, h2, h3, h4, h5, h6, h7, h8, h9, h10, h11, h12⟩ :=
      InitializeProgram_linked_state VRB_MAX_LIGHTS programs (ShutdownGL m) p hp hz
    rw [hA] at hs hc
    refine ⟨hr, ?_, ?_, hmem, ?_, hs, ?_, ?_, ?_, ?_, ?_, ?_, ?_, ?_, ?_, ?_, ?_, ?_⟩
    · rw [hc]
      exact resolves_of_mem _ (GLCall.getUniformLocation p "u_perspective")
        (List.mem_cons_of_mem _ (List.mem_append_left _ hmem)) rfl
    · rw [hc, hs]
    · rw [hs]; exact hclean
    · rw [hs]; exact h1
    · rw [hs]; exact h2
    · rw [hs]; exact h3
    · rw [hs]; exact h4
    · rw [hs]; exact h5
    · rw [hs]; exact h6
    · rw [hs]; exact h7
    · rw [hs]; exact h8
    · rw [hs]; exact h9
    · rw [hs]; exact h10
    · rw [hs]; exact h11
    · intro hslots
      rw [hs]; exact h12 hslots
  · intro ops r programs aPerspective aView aModel hops hrun
    have hr := runChecked_eq_run VRB_MAX_LIGHTS ops (ShutdownGL m) r hrun
    have hnone : r.1.skeletonMatrices = none := by
      rw [hr]
      exact run_skeleton_none VRB_MAX_LIGHTS ops (ShutdownGL m) hops rfl
    refine ⟨hnone, ?_⟩
    intro h
    obtain ⟨p, hp, ha⟩ := Enable_result_true _ _ _ _ _ _ h
    obtain ⟨-, hs, hc⟩ := Enable_calls_eq VRB_MAX_LIGHTS programs _ p aPerspective aView aModel hp ha
    have hsk := (afterActivation_frame VRB_MAX_LIGHTS programs r.1).2.2.2.1
    refine ⟨p, ?_⟩
    rw [hc, hs]
    simp only [uploadOrder, uploadAfterLights_split, hsk, hnone, List.append_nil]
  · intro matrices hpos
    have : SetSkeletonMatrices.memorySafe (ShutdownGL m) = false := by
      simp only [SetSkeletonMatrices.memorySafe, ShutdownGL, SetSkeletonMatrices.store,
        sizeofFloat, decide_eq_false_iff_not]
      omega
    simp [stepChecked, Op.memorySafe, this]

/-- Instance of C16: a Bound binder with one bone is shut down; the next `Enable` on
a linked program resolves again and caches the program's answers, and a
memory-safe run of two calls after the shutdown leaves the binder without
skeleton buffer. -/
theorem ShutdownGL_then_Enable_witness :
    (ShutdownGL skinnedBound).program = some 1 ∧
    (samplePrograms 1).Enable = true ∧
    (samplePrograms 1).GetProgram ≠ 0 ∧
    resolves (Enable 2 samplePrograms (ShutdownGL skinnedBound)
      Matrix.Identity Matrix.Identity Matrix.Identity).calls = true ∧
    (Enable 2 samplePrograms (ShutdownGL skinnedBound)
      Matrix.Identity Matrix.Identity Matrix.Identity).state.uView =
      (samplePrograms 1).GetUniformLocation "u_view" ∧
    (∀ op ∈ [Op.SetProgram (some 2),
        Op.Enable samplePrograms Matrix.Identity Matrix.Identity Matrix.Identity],
      op.isSetBonesCount = false) ∧
    runChecked 2 (ShutdownGL skinnedBound)
      [Op.SetProgram (some 2),
        Op.Enable samplePrograms Matrix.Identity Matrix.Identity Matrix.Identity] =
      some (run 2 (ShutdownGL skinnedBound)
        [Op.SetProgram (some 2),
          Op.Enable samplePrograms Matrix.Identity Matrix.Identity Matrix.Identity]) ∧
    (run 2 (ShutdownGL skinnedBound)
      [Op.SetProgram (some 2),
        Op.Enable samplePrograms Matrix.Identity Matrix.Identity
          Matrix.Identity]).1.skeletonMatrices = none :=
  ⟨rfl, rfl, by decide,
    ((ShutdownGL_then_Enable 2 skinnedBound).2.2.1 samplePrograms
      Matrix.Identity Matrix.Identity Matrix.Identity 1 rfl rfl (by decide)).2.1,
    ((ShutdownGL_then_Enable 2 skinnedBound).2.2.1 samplePrograms
      Matrix.Identity Matrix.Identity Matrix.Identity 1 rfl rfl (by decide)).2.2.2.2.2.2.2.1,
    by decide, rfl,
    ((ShutdownGL_then_Enable 2 skinnedBound).2.2.2.1
      [Op.SetProgram (some 2),
        Op.Enable samplePrograms Matrix.Identity Matrix.Identity Matrix.Identity]
      _ samplePrograms Matrix.Identity Matrix.Identity Matrix.Identity (by decide) rfl).1⟩

/-- C17 on the constructor: every scalar location of a freshly constructed binder
is -1, but each of the `VRB_MAX_LIGHTS` per-light slots holds 0 in all four fields,
because `ULight()` initialises them to 0. -/
theorem State_init_locations (VRB_MAX_LIGHTS : Nat) (defaultColor : Color) :
    (State.init VRB_MAX_LIGHTS defaultColor).program = none ∧
    (State.init VRB_MAX_LIGHTS defaultColor).updateProgram = true ∧
    (State.init VRB_MAX_LIGHTS defaultColor).uPerspective = -1 ∧
    (State.init VRB_MAX_LIGHTS defaultColor).uView = -1 ∧
    (State.init VRB_MAX_LIGHTS defaultColor).uModel = -1 ∧
    (State.init VRB_MAX_LIGHTS defaultColor).uUVTransform = -1 ∧
    (State.init VRB_MAX_LIGHTS defaultColor).uLightCount = -1 ∧
    (State.init VRB_MAX_LIGHTS defaultColor).uBoneMats = -1 ∧
    (State.init VRB_MAX_LIGHTS defaultColor).uMatterialAmbient = -1 ∧
    (State.init VRB_MAX_LIGHTS defaultColor).uMatterialDiffuse = -1 ∧
    (State.init VRB_MAX_LIGHTS defaultColor).uMatterialSpecular = -1 ∧
    (State.init VRB_MAX_LIGHTS defaultColor).uMatterialSpecularExponent = -1 ∧
    (State.init VRB_MAX_LIGHTS defaultColor).uTexture0 = -1 ∧
    (State.init VRB_MAX_LIGHTS defaultColor).uTintColor = -1 ∧
    (State.init VRB_MAX_LIGHTS defaultColor).aPosition = -1 ∧
    (State.init VRB_MAX_LIGHTS defaultColor).aNormal = -1 ∧
    (State.init VRB_MAX_LIGHTS defaultColor).aUV = -1 ∧
    (State.init VRB_MAX_LIGHTS defaultColor).aColor = -1 ∧
    (State.init VRB_MAX_LIGHTS defaultColor).aBoneId = -1 ∧
    (State.init VRB_MAX_LIGHTS defaultColor).aBoneWeight = -1 ∧
    (State.init VRB_MAX_LIGHTS defaultColor).uLights.length = VRB_MAX_LIGHTS ∧
    (∀ u ∈ (State.init VRB_MAX_LIGHTS defaultColor).uLights,
      u.direction = 0 ∧ u.ambient = 0 ∧ u.diffuse = 0 ∧ u.specular = 0) ∧
    (State.init 2 defaultColor).uLights =
      [ { direction := 0, ambient := 0, diffuse := 0, specular := 0 },
        { direction := 0, ambient := 0, diffuse := 0, specular := 0 } ] := by
  refine ⟨rfl, rfl, rfl, rfl, rfl, rfl, rfl, rfl, rfl, rfl, rfl, rfl, rfl, rfl, rfl, rfl, rfl,
    rfl, rfl, rfl, ?_, ?_, rfl⟩
  · simp [State.init]
  · intro u hu
    simp only [State.init, List.mem_replicate] at hu
    rw [hu.2]
    exact ⟨rfl, rfl, rfl, rfl⟩

/-- C18. On a program with a non-zero handle, whatever lights are bound,
`InitializeProgram` fills the `VRB_MAX_LIGHTS` light slots with the program's
answers for the names `u_lights[i].direction|ambient|diffuse|specular`, slot `i`
for index `i`; its lookups are, in order: the four fixed uniforms, the UV
transform when supported, the four light-slot names for each `i` from 0 to
`VRB_MAX_LIGHTS - 1`, the four `u_material.` names, and the remaining ones; the
material locations are the answers for the `u_material.` names. -/
theorem InitializeProgram_light_lookups (VRB_MAX_LIGHTS : Nat) (programs : Programs)
    (m : State) (p : ProgramAddr)
    (hp : m.program = some p) (hz : (programs p).GetProgram ≠ 0)
    (hslots : m.uLights.length = VRB_MAX_LIGHTS) :
    (m.InitializeProgram VRB_MAX_LIGHTS programs).1.uLights =
      (List.range VRB_MAX_LIGHTS).map (slotLocations (programs p)) ∧
    (∀ i, i < VRB_MAX_LIGHTS →
      (m.InitializeProgram VRB_MAX_LIGHTS programs).1.uLights[i]? =
        some (slotLocations (programs p) i)) ∧
    (m.InitializeProgram VRB_MAX_LIGHTS programs).2 =
      [ GLCall.getUniformLocation p "u_perspective",
        GLCall.getUniformLocation p "u_view",
        GLCall.getUniformLocation p "u_model",
        GLCall.getUniformLocation p "u_lightCount" ]
      ++ (if (programs p).SupportsFeatures Feature.FeatureUVTransform then
            [GLCall.getUniformLocation p "u_uv_transform"]
          else [])
      ++ (List.range VRB_MAX_LIGHTS).flatMap (slotLookups p)
      ++ [ GLCall.getUniformLocation p "u_material.ambient",
           GLCall.getUniformLocation p "u_material.diffuse",
           GLCall.getUniformLocation p "u_material.specular",
           GLCall.getUniformLocation p "u_material.specularExponent" ]
      ++ (if m.texture.isSome then [GLCall.getUniformLocation p "u_texture0"] else [])
      ++ [ GLCall.getUniformLocation p "u_tintColor",
           GLCall.getAttributeLocation p "a_position",
           GLCall.getAttributeLocation p "a_normal" ]
      ++ (if m.texture.isSome then [GLCall.getAttributeLocation p "a_uv"] else [])
      ++ (if (programs p).SupportsFeatures Feature.FeatureVertexColor then
            [GLCall.getAttributeLocation p "a_color"]
          else [])
      ++ (if (m.skeletonMatrices.isSome && decide (m.bonesCount > 0)) then
            [ GLCall.getAttributeLocation p "a_boneId",
              GLCall.getAttributeLocation p "a_boneWeight",
              GLCall.getUniformLocation p "u_jointMatrix" ]
          else []) ∧
    (m.InitializeProgram VRB_MAX_LIGHTS programs).1.uMatterialAmbient =
      (programs p).GetUniformLocation "u_material.ambient" ∧
    (m.InitializeProgram VRB_MAX_LIGHTS programs).1.uMatterialDiffuse =
      (programs p).GetUniformLocation "u_material.diffuse" ∧
    (m.InitializeProgram VRB_MAX_LIGHTS programs).1.uMatterialSpecular =
      (programs p).GetUniformLocation "u_material.specular" ∧
    (m.InitializeProgram VRB_MAX_LIGHTS programs).1.uMatterialSpecularExponent =
      (programs p).GetUniformLocation "u_material.specularExponent" ∧
    slotLookups p 0 =
      [ GLCall.getUniformLocation p "u_lights[0].direction",
        GLCall.getUniformLocation p "u_lights[0].ambient",
        GLCall.getUniformLocation p "u_lights[0].diffuse",
        GLCall.getUniformLocation p "u_lights[0].specular" ] := by
  have hloop := InitializeProgram.lightsLoop_all p (programs p) m.uLights
  rw [hslots] at hloop
  have hL : (m.InitializeProgram VRB_MAX_LIGHTS programs).1.uLights =
      (List.range VRB_MAX_LIGHTS).map (slotLocations (programs p)) := by
    simp [State.InitializeProgram, hp, hz, hloop]
  refine ⟨hL, ?_, ?_, ?_, ?_, ?_, ?_, ?_⟩
  · intro i hi
    rw [hL]
    simp [hi]
  · simp only [State.InitializeProgram, hp, hz, if_false, hloop]
    rfl
  · simp only [State.InitializeProgram, hp, hz, if_false]; rfl
  · simp only [State.InitializeProgram, hp, hz, if_false]; rfl
  · simp only [State.InitializeProgram, hp, hz, if_false]; rfl
  · simp only [State.InitializeProgram, hp, hz, if_false]; rfl
  · have h1 : "u_lights[" ++ toString 0 ++ "]." ++ "direction" = "u_lights[0].direction" := by
      decide
    have h2 : "u_lights[" ++ toString 0 ++ "]." ++ "ambient" = "u_lights[0].ambient" := by
      decide
    have h3 : "u_lights[" ++ toString 0 ++ "]." ++ "diffuse" = "u_lights[0].diffuse" := by
      decide
    have h4 : "u_lights[" ++ toString 0 ++ "]." ++ "specular" = "u_lights[0].specular" := by
      decide
    simp only [slotLookups, h1, h2, h3, h4]

/-- Instance of C18: a fresh binder with two light slots and a linked program. -/
theorem InitializeProgram_light_lookups_witness :
    (SetProgram sampleState (some 1)).program = some 1 ∧
    sampleProgram.GetProgram ≠ 0 ∧
    (SetProgram sampleState (some 1)).uLights.length = 2 ∧
    ((SetProgram sampleState (some 1)).InitializeProgram 2 (fun _ => sampleProgram)).1.uLights =
      (List.range 2).map (slotLocations sampleProgram) :=
  ⟨rfl, by decide, rfl,
    (InitializeProgram_light_lookups 2 (fun _ => sampleProgram) (SetProgram sampleState (some 1))
      1 rfl (by decide) rfl).1⟩

/-- C20 on two programs, program 1 answering locations below 200 and program 2
locations from 1000 up. A binder with a texture resolves against program 1 and
caches `a_uv` at 104 and `u_texture0` at 10; with the texture removed and program 2
set, the next `Enable` succeeds and resolves against program 2, yet `aUV` and
`uTexture0` still hold 104 and 10: not -1, not an answer of program 2, and neither
name was looked up. Likewise `uBoneMats`, cached at 13 from program 1, survives
`ShutdownGL`, `SetProgram` of program 2 and the resolving `Enable`; after
`SetBonesCount(1)` the next `Enable` uploads the bone matrix to location 13. -/
theorem Enable_keeps_stale_locations :
    texturedBound.aUV = 104 ∧
    texturedBound.uTexture0 = 10 ∧
    reboundWithoutTexture.result = true ∧
    resolves reboundWithoutTexture.calls = true ∧
    reboundWithoutTexture.state.program = some 2 ∧
    reboundWithoutTexture.state.updateProgram = false ∧
    reboundWithoutTexture.state.aUV = 104 ∧
    reboundWithoutTexture.state.uTexture0 = 10 ∧
    GLCall.getAttributeLocation 2 "a_uv" ∉ reboundWithoutTexture.calls ∧
    GLCall.getUniformLocation 2 "u_texture0" ∉ reboundWithoutTexture.calls ∧
    (∀ name, (samplePrograms 2).GetUniformLocation name ≥ 1000 ∧
      (samplePrograms 2).GetAttributeLocation name ≥ 1000) ∧
    skinnedBound.uBoneMats = 13 ∧
    reboundAfterShutdown.result = true ∧
    resolves reboundAfterShutdown.calls = true ∧
    reboundAfterShutdown.state.program = some 2 ∧
    reboundAfterShutdown.state.uBoneMats = 13 ∧
    skinnedAgain.result = true ∧
    skinnedAgain.calls.getLast? =
      some (GLCall.glUniformMatrix4fv (some 13) 1 false (identity16.map some)) := by
  refine ⟨by decide, by decide, rfl, by decide, rfl, rfl, by decide, by decide, by decide,
    by decide, ?_, by decide, rfl, by decide, rfl, by decide, rfl, by decide⟩
  intro name
  have h2 : samplePrograms 2 = otherProgram := rfl
  rw [h2]
  have hlen : (0 : Int) ≤ (name.length : Int) := Int.ofNat_nonneg _
  constructor
  · show (1000 : Int) + (name.length : Int) ≥ 1000
    omega
  · show (1100 : Int) + (name.length : Int) ≥ 1000
    omega

end RenderState

end vrb
